import Mathlib

/-!
Verification of the agent-provisioning logic of the camel-playground application.

The three agent-creation entry points are shallowly embedded as pure Lean
functions:

* `create_agent` — pages/01_Chat_Agents.py, lines 130-272;
* `create_model_instance` — pages/02_Role_Playing.py, lines 63-192;
* `create_agent_for_task_automation` — pages/03_Task_Automation.py, lines 63-165.

The external collaborators (the model factory `ModelFactory.create` and the
agent constructor `ChatAgent`) are modelled as injected capabilities that may
raise an exception (`Except.error`), return no model (`Except.ok none`) or
succeed.  `os.getenv` is modelled as a function `String → Option String`,
with Python truthiness (`None` and the empty string are falsy).  The calls
`st.error`/`logging` only display text and feed nothing back into the result;
each `st.error` + `return None` site is modelled as a distinct tagged error so
the failure kinds of the specification can be stated.  Each entry point also
returns the list of model-factory invocations it performed, so that claims of
the form "the factory is never invoked" and "the factory receives these
arguments" are directly statable.
-/

namespace CamelPlayground

/-- The `camel.types.ModelPlatformType` members used by the repository. -/
inductive ModelPlatformType where
  | OPENAI
  | ANTHROPIC
  | GEMINI
  | OPENROUTER
  deriving DecidableEq

/-- The `camel.types.ModelType` enum members the repository names.  The pages
reference them opaquely (they are handed to the external factory unchanged),
so distinct source spellings stay distinct constructors. -/
inductive ModelType where
  | GPT_4
  | GPT_3_5_TURBO
  | GPT_35_TURBO
  | CLAUDE_3_5_SONNET
  | CLAUDE_3_5_HAIKU
  | CLAUDE_2_1
  | CLAUDE_2
  | GEMINI_2_0_FLASH
  | GEMINI_1_5_PRO
  | GEMINI_1_5_FLASH
  deriving DecidableEq

/-- A `model_type` argument: either a library enum member or a raw string
(the "stringly-typed" pass-through the pages use for newer models). -/
inductive ModelSpec where
  | known (t : ModelType)
  | raw (s : String)
  deriving DecidableEq

/-- The float literal `0.7` of the source, represented exactly as the
rational 7/10 (given as an explicit reduced fraction so that concrete
comparisons evaluate in the kernel; `pointSeven_eq` below checks it equals
`7 / 10`). -/
def pointSeven : ℚ := ⟨7, 10, by decide, by decide⟩

/-- The tuning-parameter dictionaries the pages build.  Only the keys
`max_tokens` and `temperature` ever occur; `temperature` is the literal 0.7,
represented exactly as the rational 7/10. -/
structure ModelConfig where
  max_tokens : Option Nat
  temperature : Option ℚ
  deriving DecidableEq

/-- One invocation of `ModelFactory.create`, recording the arguments passed.
`model_platform` is `none` when the call omits the keyword (03_Task_Automation
line 142 passes no platform for enum model specs). -/
structure FactoryCall where
  model_platform : Option ModelPlatformType
  model_type : ModelSpec
  model_config_dict : ModelConfig
  api_key : Option String
  deriving DecidableEq

/-- A Python exception raised by an injected capability; `03_Task_Automation`
distinguishes `ValueError` from other exceptions in its handlers. -/
inductive PyExc where
  | valueError (m : String)
  | otherExc (m : String)
  deriving DecidableEq

/-- `str(e)`: the message carried by the exception. -/
def PyExc.msg : PyExc → String
  | .valueError m => m
  | .otherExc m => m

/-- One tag per `st.error(...)` + `return None` site of the three creation
functions.  The `Caught` tags carry `str(e)`, the original message of the
exception the handler re-surfaced. -/
inductive CreateError where
  | emptyProvider
  | emptyModel
  | missingApiKey
  | invalidProvider
  | modelNoneReturned
  | missingModelAfterColon
  | unknownProviderToken
  | unknownModelShortName
  | ambiguousConfig
  | valueErrorCaught (orig : String)
  | exceptionCaught (orig : String)
  deriving DecidableEq

/-- The system message `BaseMessage.make_assistant_message(role_name, content)`. -/
structure SysMessage where
  role_name : String
  content : String
  deriving DecidableEq

instance {ε α : Type} [DecidableEq ε] [DecidableEq α] : DecidableEq (Except ε α) := fun a b =>
  match a, b with
  | Except.error x, Except.error y =>
    if h : x = y then isTrue (by rw [h]) else isFalse (by intro hh; cases hh; exact h rfl)
  | Except.error _, Except.ok _ => isFalse (by intro hh; cases hh)
  | Except.ok _, Except.error _ => isFalse (by intro hh; cases hh)
  | Except.ok x, Except.ok y =>
    if h : x = y then isTrue (by rw [h]) else isFalse (by intro hh; cases hh; exact h rfl)

/-- The result of one creation attempt: the returned value (an agent or model
handle, or the tagged failure) together with the list of model-factory
invocations performed on the way. -/
structure Outcome (A : Type) where
  result : Except CreateError A
  factoryCalls : List FactoryCall
  deriving DecidableEq

/-- `os.getenv`. -/
def Getenv : Type := String → Option String

/-- The injected `ModelFactory.create` capability. -/
def Factory (M : Type) : Type :=
  Option ModelPlatformType → ModelSpec → ModelConfig → Option String → Except PyExc (Option M)

/-- Python truthiness of an `os.getenv` result: `None` and `""` are falsy. -/
def pyTruthy : Option String → Bool
  | none => false
  | some s => s != ""

/-!
Python string primitives, modelled over the underlying sequence of code
points (Python `str` is a sequence of code points; `String.data` is exactly
that sequence).  They are written by structural recursion over the character
list so that concrete instances evaluate inside the kernel.
-/

/-- Python `s.lower()`. -/
def pyLower (s : String) : String := ⟨s.data.map Char.toLower⟩

/-- Python `s.strip()`: remove leading and trailing whitespace. -/
def pyStrip (s : String) : String :=
  ⟨((s.data.dropWhile Char.isWhitespace).reverse.dropWhile Char.isWhitespace).reverse⟩

/-- Python `":" in s`. -/
def containsColon (s : String) : Bool := s.data.any (fun c => c == ':')

/-- Python `s.split(":", 1)` as the pair (part before the first colon, rest);
the source only evaluates it after checking `":" in s`. -/
def splitFirstColon (s : String) : String × String :=
  (⟨s.data.takeWhile (fun c => c != ':')⟩, ⟨(s.data.dropWhile (fun c => c != ':')).drop 1⟩)

/-- The model-name alias chain of the OpenAI branch
(01_Chat_Agents.py lines 156-168, identical in 02_Role_Playing.py lines 87-99).
The first three branches pass the lower-cased name, the next two map to enum
members, and unrecognized names pass through as the raw string. -/
def openaiModelType (model_name : String) : ModelSpec :=
  let l := pyLower model_name
  if l == "gpt-4o" || l == "gpt-4o-mini" then ModelSpec.raw l
  else if l == "gpt-4.1" || l == "gpt-4.1-mini" then ModelSpec.raw l
  else if l == "o3" || l == "o4-mini" then ModelSpec.raw l
  else if l == "gpt-4" then ModelSpec.known ModelType.GPT_4
  else if l == "gpt-3.5-turbo" || l == "gpt-3.5" then ModelSpec.known ModelType.GPT_3_5_TURBO
  else ModelSpec.raw model_name

/-- The model-name alias chain of the Anthropic branch
(01_Chat_Agents.py lines 183-199, identical in 02_Role_Playing.py lines 114-130).
Recognized new-generation names pass the original (not lower-cased) string. -/
def anthropicModelType (model_name : String) : ModelSpec :=
  let l := pyLower model_name
  if l == "claude-opus-4-20250514" || l == "claude-opus-4" then ModelSpec.raw model_name
  else if l == "claude-sonnet-4-20250514" || l == "claude-sonnet-4" then ModelSpec.raw model_name
  else if l == "claude-3-7-sonnet-20250219" || l == "claude-3-7-sonnet" then ModelSpec.raw model_name
  else if l == "claude-3-5-haiku-20241022" || l == "claude-3-5-haiku-latest" then ModelSpec.raw model_name
  else if l == "claude-3-5-sonnet-latest" || l == "claude-3-5-sonnet" then
    ModelSpec.known ModelType.CLAUDE_3_5_SONNET
  else if l == "claude-3-5-haiku-latest" || l == "claude-3-5-haiku" then
    ModelSpec.known ModelType.CLAUDE_3_5_HAIKU
  else if l == "claude-2" then ModelSpec.known ModelType.CLAUDE_2_1
  else ModelSpec.raw model_name

/-- The model-name alias chain of the Gemini branch
(01_Chat_Agents.py lines 214-226, identical in 02_Role_Playing.py lines 145-157). -/
def geminiModelType (model_name : String) : ModelSpec :=
  let l := pyLower model_name
  if l == "gemini-2.5-pro-preview-05-06" || l == "gemini-2.5-pro" then ModelSpec.raw model_name
  else if l == "gemini-2.5-flash-preview-05-20" || l == "gemini-2.5-flash" then ModelSpec.raw model_name
  else if l == "gemini-2.0-flash" || l == "gemini-2-0-flash" then
    ModelSpec.known ModelType.GEMINI_2_0_FLASH
  else if l == "gemini-1.5-pro" || l == "gemini-1-5-pro" then
    ModelSpec.known ModelType.GEMINI_1_5_PRO
  else if l == "gemini-1.5-flash" || l == "gemini-1-5-flash" then
    ModelSpec.known ModelType.GEMINI_1_5_FLASH
  else ModelSpec.raw model_name

/-- The external config wrappers (`ChatGPTConfig`, `AnthropicConfig`,
`GeminiConfig` with `.as_dict()`) are out-of-scope collaborators that carry
the tuning parameters through to the factory; they are modelled as the
identity on the tuning-parameter record. -/
def configAsDict (d : ModelConfig) : ModelConfig := d

/-- Shared tail of `create_agent` after a provider branch fixed the platform,
model spec, config and key: the `ModelFactory.create` call (e.g. lines
170-175), the `model_instance is None` check (lines 252-255), the system
message and `ChatAgent` construction (lines 259-267), and the `except` clause
(lines 269-272) applied to the two capability calls, the only exception
sources in scope. -/
def chatAgentFinish {M A : Type} (factory : Factory M)
    (mkChatAgent : SysMessage → M → Except PyExc A)
    (platform : ModelPlatformType) (model_type : ModelSpec) (cfg : ModelConfig)
    (api_key : Option String) (role role_description : String) : Outcome A :=
  let call : FactoryCall := ⟨some platform, model_type, cfg, api_key⟩
  match factory (some platform) model_type cfg api_key with
  | Except.error e => ⟨Except.error (CreateError.exceptionCaught e.msg), [call]⟩
  | Except.ok none => ⟨Except.error CreateError.modelNoneReturned, [call]⟩
  | Except.ok (some model_instance) =>
    let system_message : SysMessage := ⟨role, s!"You are a {role}. {role_description}"⟩
    match mkChatAgent system_message model_instance with
    | Except.error e => ⟨Except.error (CreateError.exceptionCaught e.msg), [call]⟩
    | Except.ok agent => ⟨Except.ok agent, [call]⟩

/-- `create_agent` from pages/01_Chat_Agents.py, lines 130-272.  Strips the
model name, validates non-emptiness of provider and model name, dispatches on
the lower-cased provider name, checks the provider credential, maps the model
name through the alias chain, and calls the factory and agent constructor. -/
def create_agent {M A : Type} (env : Getenv) (factory : Factory M)
    (mkChatAgent : SysMessage → M → Except PyExc A)
    (provider_name model_name role role_description agent_identifier : String) : Outcome A :=
  let model_name := pyStrip model_name
  if provider_name == "" then ⟨Except.error CreateError.emptyProvider, []⟩
  else if model_name == "" then ⟨Except.error CreateError.emptyModel, []⟩
  else
    let provider_lower := pyLower provider_name
    let model_config_dict : ModelConfig := ⟨some 4096, some pointSeven⟩
    if provider_lower == "openai" then
      let api_key := env "OPENAI_API_KEY"
      if !pyTruthy api_key then ⟨Except.error CreateError.missingApiKey, []⟩
      else
        chatAgentFinish factory mkChatAgent ModelPlatformType.OPENAI
          (openaiModelType model_name) (configAsDict model_config_dict) api_key
          role role_description
    else if provider_lower == "anthropic" then
      let api_key := env "ANTHROPIC_API_KEY"
      if !pyTruthy api_key then ⟨Except.error CreateError.missingApiKey, []⟩
      else
        chatAgentFinish factory mkChatAgent ModelPlatformType.ANTHROPIC
          (anthropicModelType model_name) (configAsDict model_config_dict) api_key
          role role_description
    else if provider_lower == "gemini" then
      let api_key := env "GEMINI_API_KEY"
      if !pyTruthy api_key then ⟨Except.error CreateError.missingApiKey, []⟩
      else
        chatAgentFinish factory mkChatAgent ModelPlatformType.GEMINI
          (geminiModelType model_name) (configAsDict model_config_dict) api_key
          role role_description
    else if provider_lower == "openrouter" then
      let api_key := env "OPENROUTER_API_KEY"
      if !pyTruthy api_key then ⟨Except.error CreateError.missingApiKey, []⟩
      else
        chatAgentFinish factory mkChatAgent ModelPlatformType.OPENROUTER
          (ModelSpec.raw model_name) model_config_dict api_key role role_description
    else ⟨Except.error CreateError.invalidProvider, []⟩

/-- Shared tail of `create_model_instance` (02_Role_Playing.py): the factory
call, the `model_instance is None` check (lines 182-184), the return of the
model instance (line 187), and the `except` clause (lines 189-192). -/
def modelInstanceFinish {M : Type} (factory : Factory M)
    (platform : ModelPlatformType) (model_type : ModelSpec) (cfg : ModelConfig)
    (api_key : Option String) : Outcome M :=
  let call : FactoryCall := ⟨some platform, model_type, cfg, api_key⟩
  match factory (some platform) model_type cfg api_key with
  | Except.error e => ⟨Except.error (CreateError.exceptionCaught e.msg), [call]⟩
  | Except.ok none => ⟨Except.error CreateError.modelNoneReturned, [call]⟩
  | Except.ok (some model_instance) => ⟨Except.ok model_instance, [call]⟩

/-- `create_model_instance` from pages/02_Role_Playing.py, lines 63-192: the
same validation, dispatch, credential check and alias chains as
`create_agent`, returning the bare model instance. -/
def create_model_instance {M : Type} (env : Getenv) (factory : Factory M)
    (provider_name model_name agent_identifier : String) : Outcome M :=
  let model_name := pyStrip model_name
  if provider_name == "" then ⟨Except.error CreateError.emptyProvider, []⟩
  else if model_name == "" then ⟨Except.error CreateError.emptyModel, []⟩
  else
    let provider_lower := pyLower provider_name
    let model_config_dict : ModelConfig := ⟨some 4096, some pointSeven⟩
    if provider_lower == "openai" then
      let api_key := env "OPENAI_API_KEY"
      if !pyTruthy api_key then ⟨Except.error CreateError.missingApiKey, []⟩
      else
        modelInstanceFinish factory ModelPlatformType.OPENAI
          (openaiModelType model_name) (configAsDict model_config_dict) api_key
    else if provider_lower == "anthropic" then
      let api_key := env "ANTHROPIC_API_KEY"
      if !pyTruthy api_key then ⟨Except.error CreateError.missingApiKey, []⟩
      else
        modelInstanceFinish factory ModelPlatformType.ANTHROPIC
          (anthropicModelType model_name) (configAsDict model_config_dict) api_key
    else if provider_lower == "gemini" then
      let api_key := env "GEMINI_API_KEY"
      if !pyTruthy api_key then ⟨Except.error CreateError.missingApiKey, []⟩
      else
        modelInstanceFinish factory ModelPlatformType.GEMINI
          (geminiModelType model_name) (configAsDict model_config_dict) api_key
    else if provider_lower == "openrouter" then
      let api_key := env "OPENROUTER_API_KEY"
      if !pyTruthy api_key then ⟨Except.error CreateError.missingApiKey, []⟩
      else
        modelInstanceFinish factory ModelPlatformType.OPENROUTER
          (ModelSpec.raw model_name) model_config_dict api_key
    else ⟨Except.error CreateError.invalidProvider, []⟩

/-- Tail of `create_agent_for_task_automation` (03_Task_Automation.py lines
130-165): the credential check (lines 130-136), the three-way factory-call
dispatch on `platform_to_pass` / `isinstance(model_spec_to_pass, ModelType)`
(lines 139-146), the `model_instance is None` check (lines 148-151), the
`ChatAgent` construction from the plain string system message (line 154), and
the `ValueError` / generic `except` clauses (lines 158-165) applied to the two
capability calls.  Note `model_config = {"max_tokens": 4096}` (line 79): no
temperature is attached at this call site.

`taskCallAndBuild` is the shared continuation after the dispatch of lines
139-146 chose the factory-call shape: the `ModelFactory.create` invocation,
the `model_instance is None` check, the `ChatAgent` construction and the two
`except` handlers. -/
def taskCallAndBuild {M A : Type} (factory : Factory M)
    (mkChatAgent : String → M → Except PyExc A)
    (pf : Option ModelPlatformType) (spec : ModelSpec) (cfg : ModelConfig)
    (key : Option String) (role role_description : String) : Outcome A :=
  let call : FactoryCall := ⟨pf, spec, cfg, key⟩
  match factory pf spec cfg key with
  | Except.error (PyExc.valueError m) => ⟨Except.error (CreateError.valueErrorCaught m), [call]⟩
  | Except.error (PyExc.otherExc m) => ⟨Except.error (CreateError.exceptionCaught m), [call]⟩
  | Except.ok none => ⟨Except.error CreateError.modelNoneReturned, [call]⟩
  | Except.ok (some model_instance) =>
    match mkChatAgent s!"You are a {role}. {role_description}" model_instance with
    | Except.error (PyExc.valueError m) => ⟨Except.error (CreateError.valueErrorCaught m), [call]⟩
    | Except.error (PyExc.otherExc m) => ⟨Except.error (CreateError.exceptionCaught m), [call]⟩
    | Except.ok agent => ⟨Except.ok agent, [call]⟩

/-- The credential check of lines 130-136 followed by the three-way dispatch
of lines 139-146 on `platform_to_pass` and
`isinstance(model_spec_to_pass, ModelType)`, continuing via
`taskCallAndBuild`. -/
def taskAgentFinish {M A : Type} (env : Getenv) (factory : Factory M)
    (mkChatAgent : String → M → Except PyExc A)
    (platform_to_pass : Option ModelPlatformType) (model_spec_to_pass : ModelSpec)
    (api_key_env_var : String) (role role_description : String) : Outcome A :=
  let model_config : ModelConfig := ⟨some 4096, none⟩
  let api_key_present := pyTruthy (env api_key_env_var)
  if api_key_env_var != "" && !api_key_present then
    ⟨Except.error CreateError.missingApiKey, []⟩
  else
    match platform_to_pass, model_spec_to_pass with
    | some p, ModelSpec.raw _ =>
      taskCallAndBuild factory mkChatAgent (some p) model_spec_to_pass model_config
        (env api_key_env_var) role role_description
    | _, ModelSpec.known _ =>
      taskCallAndBuild factory mkChatAgent none model_spec_to_pass model_config
        (env api_key_env_var) role role_description
    | none, ModelSpec.raw _ => ⟨Except.error CreateError.ambiguousConfig, []⟩

/-- `create_agent_for_task_automation` from pages/03_Task_Automation.py,
lines 63-165.  Takes a single model-name input (no separate provider): strips
it, rejects the empty input, and either parses a `provider:model` prefix
(lines 82-109) or infers the provider from one of three known short names
(lines 110-128), then finishes via `taskAgentFinish`. -/
def create_agent_for_task_automation {M A : Type} (env : Getenv) (factory : Factory M)
    (mkChatAgent : String → M → Except PyExc A)
    (model_name_input role role_description agent_identifier : String) : Outcome A :=
  let model_name_input_stripped := pyStrip model_name_input
  if model_name_input_stripped == "" then ⟨Except.error CreateError.emptyModel, []⟩
  else if containsColon model_name_input_stripped then
    let parts := splitFirstColon model_name_input_stripped
    let provider_from_input := pyLower parts.1
    let model_name_from_input := parts.2
    if model_name_from_input == "" then
      ⟨Except.error CreateError.missingModelAfterColon, []⟩
    else
      let model_spec_to_pass := ModelSpec.raw model_name_from_input
      if provider_from_input == "openai" then
        taskAgentFinish env factory mkChatAgent (some ModelPlatformType.OPENAI)
          model_spec_to_pass "OPENAI_API_KEY" role role_description
      else if provider_from_input == "anthropic" then
        taskAgentFinish env factory mkChatAgent (some ModelPlatformType.ANTHROPIC)
          model_spec_to_pass "ANTHROPIC_API_KEY" role role_description
      else if provider_from_input == "gemini" then
        taskAgentFinish env factory mkChatAgent (some ModelPlatformType.GEMINI)
          model_spec_to_pass "GEMINI_API_KEY" role role_description
      else if provider_from_input == "openrouter" then
        taskAgentFinish env factory mkChatAgent (some ModelPlatformType.OPENROUTER)
          model_spec_to_pass "OPENROUTER_API_KEY" role role_description
      else ⟨Except.error CreateError.unknownProviderToken, []⟩
  else
    let lower_input := pyLower model_name_input_stripped
    if lower_input == "gpt-4" then
      taskAgentFinish env factory mkChatAgent (some ModelPlatformType.OPENAI)
        (ModelSpec.known ModelType.GPT_4) "OPENAI_API_KEY" role role_description
    else if lower_input == "gpt-3.5-turbo" || lower_input == "gpt-3.5" then
      taskAgentFinish env factory mkChatAgent (some ModelPlatformType.OPENAI)
        (ModelSpec.known ModelType.GPT_35_TURBO) "OPENAI_API_KEY" role role_description
    else if lower_input == "claude-2" then
      taskAgentFinish env factory mkChatAgent (some ModelPlatformType.ANTHROPIC)
        (ModelSpec.known ModelType.CLAUDE_2) "ANTHROPIC_API_KEY" role role_description
    else ⟨Except.error CreateError.unknownModelShortName, []⟩

/-- The error the two `except` handlers of 03_Task_Automation (lines 158-165)
report for a given exception: `ValueError` and other exceptions are caught by
distinct clauses, each carrying the original message. -/
def taskCaught : PyExc → CreateError
  | .valueError m => CreateError.valueErrorCaught m
  | .otherExc m => CreateError.exceptionCaught m

/-!
Lookup views of the provider dispatch chains, used to quantify theorem
statements over the recognized providers.  Each mirrors the corresponding
`if`/`elif` chain of the source.
-/

/-- The credential environment variable consulted by each provider branch of
`create_agent` / `create_model_instance` (01 lines 150-246, 02 lines 81-177),
keyed by the lower-cased provider name; `none` for unrecognized providers. -/
def providerEnvKey (provider_lower : String) : Option String :=
  if provider_lower == "openai" then some "OPENAI_API_KEY"
  else if provider_lower == "anthropic" then some "ANTHROPIC_API_KEY"
  else if provider_lower == "gemini" then some "GEMINI_API_KEY"
  else if provider_lower == "openrouter" then some "OPENROUTER_API_KEY"
  else none

/-- The platform each provider branch of `create_agent` /
`create_model_instance` passes to the factory. -/
def providerPlatform (provider_lower : String) : Option ModelPlatformType :=
  if provider_lower == "openai" then some ModelPlatformType.OPENAI
  else if provider_lower == "anthropic" then some ModelPlatformType.ANTHROPIC
  else if provider_lower == "gemini" then some ModelPlatformType.GEMINI
  else if provider_lower == "openrouter" then some ModelPlatformType.OPENROUTER
  else none

/-- The alias mapping each provider branch applies to the stripped model name
(the OpenRouter branch has no alias chain and passes the raw name, 01 line
243). -/
def providerAlias (provider_lower model_name : String) : ModelSpec :=
  if provider_lower == "openai" then openaiModelType model_name
  else if provider_lower == "anthropic" then anthropicModelType model_name
  else if provider_lower == "gemini" then geminiModelType model_name
  else ModelSpec.raw model_name

/-- The model names the OpenAI alias chain compares the lower-cased input
against (01 lines 157-165). -/
def openaiAliasKeys : List String :=
  ["gpt-4o", "gpt-4o-mini", "gpt-4.1", "gpt-4.1-mini", "o3", "o4-mini",
   "gpt-4", "gpt-3.5-turbo", "gpt-3.5"]

/-- The model names the Anthropic alias chain compares the lower-cased input
against (01 lines 184-196). -/
def anthropicAliasKeys : List String :=
  ["claude-opus-4-20250514", "claude-opus-4", "claude-sonnet-4-20250514", "claude-sonnet-4",
   "claude-3-7-sonnet-20250219", "claude-3-7-sonnet", "claude-3-5-haiku-20241022",
   "claude-3-5-haiku-latest", "claude-3-5-sonnet-latest", "claude-3-5-sonnet",
   "claude-3-5-haiku", "claude-2"]

/-- The model names the Gemini alias chain compares the lower-cased input
against (01 lines 215-223). -/
def geminiAliasKeys : List String :=
  ["gemini-2.5-pro-preview-05-06", "gemini-2.5-pro", "gemini-2.5-flash-preview-05-20",
   "gemini-2.5-flash", "gemini-2.0-flash", "gemini-2-0-flash", "gemini-1.5-pro",
   "gemini-1-5-pro", "gemini-1.5-flash", "gemini-1-5-flash"]

/-- The alias-table keys of each provider branch (empty for OpenRouter, which
has no alias chain). -/
def providerAliasKeys (provider_lower : String) : List String :=
  if provider_lower == "openai" then openaiAliasKeys
  else if provider_lower == "anthropic" then anthropicAliasKeys
  else if provider_lower == "gemini" then geminiAliasKeys
  else []

/-!
Concrete fixtures: environments and stub capabilities used to evaluate the
embedded functions at specific inputs.  Model handles and agent handles are
represented by `Nat`.
-/

/-- An environment with no credential set. -/
def envNone : Getenv := fun _ => none

/-- An environment with all four provider credentials set. -/
def envAll : Getenv := fun k =>
  if k == "OPENAI_API_KEY" then some "sk-test-openai"
  else if k == "ANTHROPIC_API_KEY" then some "sk-test-anthropic"
  else if k == "GEMINI_API_KEY" then some "sk-test-gemini"
  else if k == "OPENROUTER_API_KEY" then some "sk-test-openrouter"
  else none

/-- `envAll` plus one unrelated variable: agrees with `envAll` on every
provider credential variable. -/
def envAllPlus : Getenv := fun k =>
  if k == "PRIMARY_CAMEL_PROVIDER" then some "OpenAI" else envAll k

/-- An environment with only the OpenAI credential set. -/
def envOpenAIOnly : Getenv := fun k =>
  if k == "OPENAI_API_KEY" then some "sk-test-openai" else none

/-- A stub factory that returns a dummy model handle. -/
def okFactory : Factory Nat := fun _ _ _ _ => Except.ok (some 0)

/-- A stub factory that returns `None`. -/
def noneFactory : Factory Nat := fun _ _ _ _ => Except.ok none

/-- A stub factory that raises the given exception. -/
def raiseFactory (e : PyExc) : Factory Nat := fun _ _ _ _ => Except.error e

/-- A stub `ChatAgent` constructor returning a dummy agent handle. -/
def okCtor : SysMessage → Nat → Except PyExc Nat := fun _ _ => Except.ok 1

/-- A stub `ChatAgent` constructor that raises the given exception. -/
def raiseCtor (e : PyExc) : SysMessage → Nat → Except PyExc Nat := fun _ _ => Except.error e

/-- A stub string-message `ChatAgent` constructor (03 passes a plain string). -/
def okCtorStr : String → Nat → Except PyExc Nat := fun _ _ => Except.ok 1

/-- A stub string-message `ChatAgent` constructor that raises. -/
def raiseCtorStr (e : PyExc) : String → Nat → Except PyExc Nat := fun _ _ => Except.error e

/-!
### General lemmas about the embedding
-/

/-- The exact-fraction representation of the temperature literal equals 7/10. -/
theorem pointSeven_eq : pointSeven = 7 / 10 := by
  rw [pointSeven, Rat.mk'_eq_divInt, Rat.divInt_eq_div]
  norm_num

/-- `chatAgentFinish` performs exactly one factory call, with the arguments it
was handed. -/
theorem chatAgentFinish_calls {M A : Type} (factory : Factory M)
    (mk : SysMessage → M → Except PyExc A) (pl : ModelPlatformType) (spec : ModelSpec)
    (cfg : ModelConfig) (key : Option String) (role rd : String) :
    (chatAgentFinish factory mk pl spec cfg key role rd).factoryCalls =
      [⟨some pl, spec, cfg, key⟩] := by
  cases hf : factory (some pl) spec cfg key with
  | error e => simp [chatAgentFinish, hf]
  | ok m =>
    cases m with
    | none => simp [chatAgentFinish, hf]
    | some mi =>
      cases hm : mk ⟨role, s!"You are a {role}. {rd}"⟩ mi <;>
        simp [chatAgentFinish, hf, hm]

/-- `modelInstanceFinish` performs exactly one factory call, with the
arguments it was handed. -/
theorem modelInstanceFinish_calls {M : Type} (factory : Factory M)
    (pl : ModelPlatformType) (spec : ModelSpec) (cfg : ModelConfig)
    (key : Option String) :
    (modelInstanceFinish factory pl spec cfg key).factoryCalls =
      [⟨some pl, spec, cfg, key⟩] := by
  cases hf : factory (some pl) spec cfg key with
  | error e => simp [modelInstanceFinish, hf]
  | ok m => cases m <;> simp [modelInstanceFinish, hf]

/-- `taskCallAndBuild` performs exactly one factory call, with the arguments
it was handed. -/
theorem taskCallAndBuild_calls {M A : Type} (factory : Factory M)
    (mk : String → M → Except PyExc A) (pf : Option ModelPlatformType)
    (spec : ModelSpec) (cfg : ModelConfig) (key : Option String) (role rd : String) :
    (taskCallAndBuild factory mk pf spec cfg key role rd).factoryCalls =
      [⟨pf, spec, cfg, key⟩] := by
  cases hf : factory pf spec cfg key with
  | error e => cases e <;> simp [taskCallAndBuild, hf]
  | ok m =>
    cases m with
    | none => simp [taskCallAndBuild, hf]
    | some mi =>
      cases hm : mk s!"You are a {role}. {rd}" mi with
      | error e => cases e <;> simp [taskCallAndBuild, hf, hm]
      | ok a => simp [taskCallAndBuild, hf, hm]

/-- When the credential variable is named but unset, `taskAgentFinish` fails
with the missing-key error and performs no factory call. -/
theorem taskAgentFinish_noKey {M A : Type} (env : Getenv) (factory : Factory M)
    (mk : String → M → Except PyExc A) (pl : Option ModelPlatformType)
    (spec : ModelSpec) (v role rd : String)
    (hv : v ≠ "") (henv : pyTruthy (env v) = false) :
    taskAgentFinish env factory mk pl spec v role rd =
      ⟨Except.error CreateError.missingApiKey, []⟩ := by
  unfold taskAgentFinish
  simp [hv, henv]

/-- With the credential set, a present platform and a raw model spec,
`taskAgentFinish` performs exactly one factory call, passing the raw spec,
the max-tokens-only config and the credential value. -/
theorem taskAgentFinish_raw_calls {M A : Type} (env : Getenv) (factory : Factory M)
    (mk : String → M → Except PyExc A) (p : ModelPlatformType)
    (s v role rd : String) (henv : pyTruthy (env v) = true) :
    (taskAgentFinish env factory mk (some p) (ModelSpec.raw s) v role rd).factoryCalls =
      [⟨some p, ModelSpec.raw s, ⟨some 4096, none⟩, env v⟩] := by
  unfold taskAgentFinish
  simp [henv, taskCallAndBuild_calls]

/-- Every factory call `taskAgentFinish` performs carries the max-tokens-only
config dict (03 line 79: `model_config = {"max_tokens": 4096}`). -/
theorem taskAgentFinish_config {M A : Type} (env : Getenv) (factory : Factory M)
    (mk : String → M → Except PyExc A) (pl : Option ModelPlatformType)
    (spec : ModelSpec) (v role rd : String) (c : FactoryCall)
    (hc : c ∈ (taskAgentFinish env factory mk pl spec v role rd).factoryCalls) :
    c.model_config_dict = ⟨some 4096, none⟩ := by
  cases pl <;> cases spec <;>
    (simp only [taskAgentFinish] at hc
     split at hc
     · simp at hc
     · first
        | simp at hc
        | (rw [taskCallAndBuild_calls] at hc
           simp at hc
           subst hc
           rfl))

/-- Dispatch lemma for `create_agent`: with a non-empty provider naming one of
the four recognized providers and a non-empty stripped model name, the
function checks that provider's credential and otherwise finishes with that
provider's platform, alias mapping and the fixed config. -/
theorem create_agent_known {M A : Type} (env : Getenv) (factory : Factory M)
    (mk : SysMessage → M → Except PyExc A) (pn mn role rd aid key : String)
    (pl : ModelPlatformType)
    (hpn : pn ≠ "") (hmn : pyStrip mn ≠ "")
    (hkey : providerEnvKey (pyLower pn) = some key)
    (hpl : providerPlatform (pyLower pn) = some pl) :
    create_agent env factory mk pn mn role rd aid =
      if !pyTruthy (env key) then ⟨Except.error CreateError.missingApiKey, []⟩
      else chatAgentFinish factory mk pl (providerAlias (pyLower pn) (pyStrip mn))
        ⟨some 4096, some pointSeven⟩ (env key) role rd := by
  by_cases h2 : pyLower pn = "openai"
  · simp [providerEnvKey, h2] at hkey
    simp [providerPlatform, h2] at hpl
    subst hkey; subst hpl
    simp [create_agent, hpn, hmn, h2, providerAlias, configAsDict]
  · by_cases h3 : pyLower pn = "anthropic"
    · simp [providerEnvKey, h2, h3] at hkey
      simp [providerPlatform, h2, h3] at hpl
      subst hkey; subst hpl
      simp [create_agent, hpn, hmn, h2, h3, providerAlias, configAsDict]
    · by_cases h4 : pyLower pn = "gemini"
      · simp [providerEnvKey, h2, h3, h4] at hkey
        simp [providerPlatform, h2, h3, h4] at hpl
        subst hkey; subst hpl
        simp [create_agent, hpn, hmn, h2, h3, h4, providerAlias, configAsDict]
      · by_cases h5 : pyLower pn = "openrouter"
        · simp [providerEnvKey, h2, h3, h4, h5] at hkey
          simp [providerPlatform, h2, h3, h4, h5] at hpl
          subst hkey; subst hpl
          simp [create_agent, hpn, hmn, h2, h3, h4, h5, providerAlias, configAsDict]
        · simp [providerEnvKey, h2, h3, h4, h5] at hkey

/-- Dispatch lemma for `create_model_instance`, analogous to
`create_agent_known`. -/
theorem create_model_instance_known {M : Type} (env : Getenv) (factory : Factory M)
    (pn mn aid key : String) (pl : ModelPlatformType)
    (hpn : pn ≠ "") (hmn : pyStrip mn ≠ "")
    (hkey : providerEnvKey (pyLower pn) = some key)
    (hpl : providerPlatform (pyLower pn) = some pl) :
    create_model_instance env factory pn mn aid =
      if !pyTruthy (env key) then ⟨Except.error CreateError.missingApiKey, []⟩
      else modelInstanceFinish factory pl (providerAlias (pyLower pn) (pyStrip mn))
        ⟨some 4096, some pointSeven⟩ (env key) := by
  by_cases h2 : pyLower pn = "openai"
  · simp [providerEnvKey, h2] at hkey
    simp [providerPlatform, h2] at hpl
    subst hkey; subst hpl
    simp [create_model_instance, hpn, hmn, h2, providerAlias, configAsDict]
  · by_cases h3 : pyLower pn = "anthropic"
    · simp [providerEnvKey, h2, h3] at hkey
      simp [providerPlatform, h2, h3] at hpl
      subst hkey; subst hpl
      simp [create_model_instance, hpn, hmn, h2, h3, providerAlias, configAsDict]
    · by_cases h4 : pyLower pn = "gemini"
      · simp [providerEnvKey, h2, h3, h4] at hkey
        simp [providerPlatform, h2, h3, h4] at hpl
        subst hkey; subst hpl
        simp [create_model_instance, hpn, hmn, h2, h3, h4, providerAlias, configAsDict]
      · by_cases h5 : pyLower pn = "openrouter"
        · simp [providerEnvKey, h2, h3, h4, h5] at hkey
          simp [providerPlatform, h2, h3, h4, h5] at hpl
          subst hkey; subst hpl
          simp [create_model_instance, hpn, hmn, h2, h3, h4, h5, providerAlias, configAsDict]
        · simp [providerEnvKey, h2, h3, h4, h5] at hkey

/-- A model name whose lower-cased form misses every OpenAI alias key falls
through the chain to the raw pass-through. -/
theorem openaiModelType_raw (mn : String) (h : pyLower mn ∉ openaiAliasKeys) :
    openaiModelType mn = ModelSpec.raw mn := by
  simp only [openaiAliasKeys, List.mem_cons, List.not_mem_nil, or_false, not_or] at h
  obtain ⟨h1, h2, h3, h4, h5, h6, h7, h8, h9⟩ := h
  simp [openaiModelType, h1, h2, h3, h4, h5, h6, h7, h8, h9]

/-- A model name whose lower-cased form misses every Anthropic alias key
falls through the chain to the raw pass-through. -/
theorem anthropicModelType_raw (mn : String) (h : pyLower mn ∉ anthropicAliasKeys) :
    anthropicModelType mn = ModelSpec.raw mn := by
  simp only [anthropicAliasKeys, List.mem_cons, List.not_mem_nil, or_false, not_or] at h
  obtain ⟨h1, h2, h3, h4, h5, h6, h7, h8, h9, h10, h11, h12⟩ := h
  simp [anthropicModelType, h1, h2, h3, h4, h5, h6, h7, h8, h9, h10, h11, h12]

/-- A model name whose lower-cased form misses every Gemini alias key falls
through the chain to the raw pass-through. -/
theorem geminiModelType_raw (mn : String) (h : pyLower mn ∉ geminiAliasKeys) :
    geminiModelType mn = ModelSpec.raw mn := by
  simp only [geminiAliasKeys, List.mem_cons, List.not_mem_nil, or_false, not_or] at h
  obtain ⟨h1, h2, h3, h4, h5, h6, h7, h8, h9, h10⟩ := h
  simp [geminiModelType, h1, h2, h3, h4, h5, h6, h7, h8, h9, h10]

/-- Alias miss implies raw pass-through, uniformly over providers. -/
theorem providerAlias_raw (p mn : String) (h : pyLower mn ∉ providerAliasKeys p) :
    providerAlias p mn = ModelSpec.raw mn := by
  by_cases h2 : p = "openai"
  · simp only [providerAliasKeys, h2] at h
    simp only [providerAlias, h2]
    simp [openaiModelType_raw mn (by simpa using h)]
  · by_cases h3 : p = "anthropic"
    · simp only [providerAliasKeys, h2, h3] at h
      simp only [providerAlias, h2, h3]
      simp [h2, anthropicModelType_raw mn (by simpa [h2] using h)]
    · by_cases h4 : p = "gemini"
      · simp only [providerAliasKeys, h2, h3, h4] at h
        simp only [providerAlias, h2, h3, h4]
        simp [h2, h3, geminiModelType_raw mn (by simpa [h2, h3] using h)]
      · simp [providerAlias, h2, h3, h4]

/-- A provider with a credential key also has a platform. -/
theorem providerPlatform_isSome (p key : String) (h : providerEnvKey p = some key) :
    ∃ pl, providerPlatform p = some pl := by
  unfold providerEnvKey at h
  unfold providerPlatform
  split_ifs at h ⊢ <;> simp_all

/-- The provider dispatch recognizes exactly the four lower-case names. -/
theorem providerEnvKey_eq_none_iff (p : String) :
    providerEnvKey p = none ↔
      p ≠ "openai" ∧ p ≠ "anthropic" ∧ p ≠ "gemini" ∧ p ≠ "openrouter" := by
  unfold providerEnvKey
  split_ifs <;> simp_all

/-- A recognized provider's credential key is one of the four variables. -/
theorem providerEnvKey_mem (p key : String) (h : providerEnvKey p = some key) :
    key = "OPENAI_API_KEY" ∨ key = "ANTHROPIC_API_KEY" ∨
      key = "GEMINI_API_KEY" ∨ key = "OPENROUTER_API_KEY" := by
  unfold providerEnvKey at h
  split_ifs at h <;> simp_all

/-- With an unrecognized provider, `create_agent` fails with the
invalid-provider error and performs no factory call (01 lines 247-250). -/
theorem create_agent_invalidProvider {M A : Type} (env : Getenv) (factory : Factory M)
    (mk : SysMessage → M → Except PyExc A) (pn mn role rd aid : String)
    (hpn : pn ≠ "") (hmn : pyStrip mn ≠ "")
    (h : providerEnvKey (pyLower pn) = none) :
    create_agent env factory mk pn mn role rd aid =
      ⟨Except.error CreateError.invalidProvider, []⟩ := by
  rw [providerEnvKey_eq_none_iff] at h
  obtain ⟨h1, h2, h3, h4⟩ := h
  simp [create_agent, hpn, hmn, h1, h2, h3, h4]

/-- With an unrecognized provider, `create_model_instance` fails with the
invalid-provider error and performs no factory call (02 lines 178-180). -/
theorem create_model_instance_invalidProvider {M : Type} (env : Getenv) (factory : Factory M)
    (pn mn aid : String) (hpn : pn ≠ "") (hmn : pyStrip mn ≠ "")
    (h : providerEnvKey (pyLower pn) = none) :
    create_model_instance env factory pn mn aid =
      ⟨Except.error CreateError.invalidProvider, []⟩ := by
  rw [providerEnvKey_eq_none_iff] at h
  obtain ⟨h1, h2, h3, h4⟩ := h
  simp [create_model_instance, hpn, hmn, h1, h2, h3, h4]

/-- Inversion for `create_agent`: every run either fails before the factory
(with one of the four pre-factory errors and no factory call) or finishes via
`chatAgentFinish` for the recognized provider with its credential set. -/
theorem create_agent_shape {M A : Type} (env : Getenv) (factory : Factory M)
    (mk : SysMessage → M → Except PyExc A) (pn mn role rd aid : String) :
    ((create_agent env factory mk pn mn role rd aid).factoryCalls = [] ∧
      ∃ err, (create_agent env factory mk pn mn role rd aid).result = Except.error err ∧
        (err = CreateError.emptyProvider ∨ err = CreateError.emptyModel ∨
          err = CreateError.missingApiKey ∨ err = CreateError.invalidProvider)) ∨
    (∃ key pl, providerEnvKey (pyLower pn) = some key ∧
      providerPlatform (pyLower pn) = some pl ∧ pyTruthy (env key) = true ∧
      create_agent env factory mk pn mn role rd aid =
        chatAgentFinish factory mk pl (providerAlias (pyLower pn) (pyStrip mn))
          ⟨some 4096, some pointSeven⟩ (env key) role rd) := by
  by_cases hpn : pn = ""
  · left
    have h : create_agent env factory mk pn mn role rd aid =
        ⟨Except.error CreateError.emptyProvider, []⟩ := by
      subst hpn; simp [create_agent]
    rw [h]
    exact ⟨rfl, CreateError.emptyProvider, rfl, Or.inl rfl⟩
  · by_cases hmn : pyStrip mn = ""
    · left
      have h : create_agent env factory mk pn mn role rd aid =
          ⟨Except.error CreateError.emptyModel, []⟩ := by
        simp [create_agent, hpn, hmn]
      rw [h]
      exact ⟨rfl, CreateError.emptyModel, rfl, Or.inr (Or.inl rfl)⟩
    · cases hkey : providerEnvKey (pyLower pn) with
      | none =>
        left
        rw [create_agent_invalidProvider env factory mk pn mn role rd aid hpn hmn hkey]
        exact ⟨rfl, CreateError.invalidProvider, rfl, Or.inr (Or.inr (Or.inr rfl))⟩
      | some key =>
        obtain ⟨pl, hpl⟩ := providerPlatform_isSome _ _ hkey
        by_cases ht : pyTruthy (env key) = true
        · right
          refine ⟨key, pl, rfl, hpl, ht, ?_⟩
          rw [create_agent_known env factory mk pn mn role rd aid key pl hpn hmn hkey hpl]
          simp [ht]
        · left
          have ht' : pyTruthy (env key) = false := by simpa using ht
          have h : create_agent env factory mk pn mn role rd aid =
              ⟨Except.error CreateError.missingApiKey, []⟩ := by
            rw [create_agent_known env factory mk pn mn role rd aid key pl hpn hmn hkey hpl]
            simp [ht']
          rw [h]
          exact ⟨rfl, CreateError.missingApiKey, rfl, Or.inr (Or.inr (Or.inl rfl))⟩

/-- Inversion for `create_model_instance`, analogous to `create_agent_shape`. -/
theorem create_model_instance_shape {M : Type} (env : Getenv) (factory : Factory M)
    (pn mn aid : String) :
    ((create_model_instance env factory pn mn aid).factoryCalls = [] ∧
      ∃ err, (create_model_instance env factory pn mn aid).result = Except.error err ∧
        (err = CreateError.emptyProvider ∨ err = CreateError.emptyModel ∨
          err = CreateError.missingApiKey ∨ err = CreateError.invalidProvider)) ∨
    (∃ key pl, providerEnvKey (pyLower pn) = some key ∧
      providerPlatform (pyLower pn) = some pl ∧ pyTruthy (env key) = true ∧
      create_model_instance env factory pn mn aid =
        modelInstanceFinish factory pl (providerAlias (pyLower pn) (pyStrip mn))
          ⟨some 4096, some pointSeven⟩ (env key)) := by
  by_cases hpn : pn = ""
  · left
    have h : create_model_instance env factory pn mn aid =
        ⟨Except.error CreateError.emptyProvider, []⟩ := by
      subst hpn; simp [create_model_instance]
    rw [h]
    exact ⟨rfl, CreateError.emptyProvider, rfl, Or.inl rfl⟩
  · by_cases hmn : pyStrip mn = ""
    · left
      have h : create_model_instance env factory pn mn aid =
          ⟨Except.error CreateError.emptyModel, []⟩ := by
        simp [create_model_instance, hpn, hmn]
      rw [h]
      exact ⟨rfl, CreateError.emptyModel, rfl, Or.inr (Or.inl rfl)⟩
    · cases hkey : providerEnvKey (pyLower pn) with
      | none =>
        left
        rw [create_model_instance_invalidProvider env factory pn mn aid hpn hmn hkey]
        exact ⟨rfl, CreateError.invalidProvider, rfl, Or.inr (Or.inr (Or.inr rfl))⟩
      | some key =>
        obtain ⟨pl, hpl⟩ := providerPlatform_isSome _ _ hkey
        by_cases ht : pyTruthy (env key) = true
        · right
          refine ⟨key, pl, rfl, hpl, ht, ?_⟩
          rw [create_model_instance_known env factory pn mn aid key pl hpn hmn hkey hpl]
          simp [ht]
        · left
          have ht' : pyTruthy (env key) = false := by simpa using ht
          have h : create_model_instance env factory pn mn aid =
              ⟨Except.error CreateError.missingApiKey, []⟩ := by
            rw [create_model_instance_known env factory pn mn aid key pl hpn hmn hkey hpl]
            simp [ht']
          rw [h]
          exact ⟨rfl, CreateError.missingApiKey, rfl, Or.inr (Or.inr (Or.inl rfl))⟩

/-- Inversion for `taskAgentFinish`: missing key, ambiguous configuration, or
a `taskCallAndBuild` continuation. -/
theorem taskAgentFinish_shape {M A : Type} (env : Getenv) (factory : Factory M)
    (mk : String → M → Except PyExc A) (pl : Option ModelPlatformType)
    (spec : ModelSpec) (v role rd : String) :
    taskAgentFinish env factory mk pl spec v role rd =
        ⟨Except.error CreateError.missingApiKey, []⟩ ∨
    taskAgentFinish env factory mk pl spec v role rd =
        ⟨Except.error CreateError.ambiguousConfig, []⟩ ∨
    (∃ pf, taskAgentFinish env factory mk pl spec v role rd =
        taskCallAndBuild factory mk pf spec ⟨some 4096, none⟩ (env v) role rd) := by
  unfold taskAgentFinish
  by_cases hk : (v != "" && !pyTruthy (env v)) = true
  · rw [if_pos hk]
    exact Or.inl rfl
  · rw [if_neg hk]
    cases pl with
    | none =>
      cases spec with
      | known t => exact Or.inr (Or.inr ⟨none, rfl⟩)
      | raw s => exact Or.inr (Or.inl rfl)
    | some p =>
      cases spec with
      | known t => exact Or.inr (Or.inr ⟨none, rfl⟩)
      | raw s => exact Or.inr (Or.inr ⟨some p, rfl⟩)

/-- Inversion for `create_agent_for_task_automation`: every run either fails
before the factory (with one of the five pre-factory errors and no factory
call) or continues via `taskCallAndBuild` with the max-tokens-only config and
the value of one of the credential variables. -/
theorem task_automation_shape {M A : Type} (env : Getenv) (factory : Factory M)
    (mk : String → M → Except PyExc A) (mn role rd aid : String) :
    ((create_agent_for_task_automation env factory mk mn role rd aid).factoryCalls = [] ∧
      ∃ err, (create_agent_for_task_automation env factory mk mn role rd aid).result =
          Except.error err ∧
        (err = CreateError.emptyModel ∨ err = CreateError.missingModelAfterColon ∨
          err = CreateError.unknownProviderToken ∨ err = CreateError.unknownModelShortName ∨
          err = CreateError.missingApiKey ∨ err = CreateError.ambiguousConfig)) ∨
    (∃ pf spec v, create_agent_for_task_automation env factory mk mn role rd aid =
        taskCallAndBuild factory mk pf spec ⟨some 4096, none⟩ (env v) role rd) := by
  by_cases h0 : pyStrip mn = ""
  · left
    have h : create_agent_for_task_automation env factory mk mn role rd aid =
        ⟨Except.error CreateError.emptyModel, []⟩ := by
      simp [create_agent_for_task_automation, h0]
    rw [h]
    exact ⟨rfl, CreateError.emptyModel, rfl, Or.inl rfl⟩
  · have step : ∀ (pl : Option ModelPlatformType) (spec : ModelSpec) (v : String),
        create_agent_for_task_automation env factory mk mn role rd aid =
          taskAgentFinish env factory mk pl spec v role rd →
        ((create_agent_for_task_automation env factory mk mn role rd aid).factoryCalls = [] ∧
          ∃ err, (create_agent_for_task_automation env factory mk mn role rd aid).result =
              Except.error err ∧
            (err = CreateError.emptyModel ∨ err = CreateError.missingModelAfterColon ∨
              err = CreateError.unknownProviderToken ∨
              err = CreateError.unknownModelShortName ∨
              err = CreateError.missingApiKey ∨ err = CreateError.ambiguousConfig)) ∨
        (∃ pf spec v, create_agent_for_task_automation env factory mk mn role rd aid =
            taskCallAndBuild factory mk pf spec ⟨some 4096, none⟩ (env v) role rd) := by
      intro pl spec v heq
      rcases taskAgentFinish_shape env factory mk pl spec v role rd with h | h | ⟨pf, h⟩
      · left
        rw [heq, h]
        exact ⟨rfl, CreateError.missingApiKey, rfl,
          Or.inr (Or.inr (Or.inr (Or.inr (Or.inl rfl))))⟩
      · left
        rw [heq, h]
        exact ⟨rfl, CreateError.ambiguousConfig, rfl,
          Or.inr (Or.inr (Or.inr (Or.inr (Or.inr rfl))))⟩
      · right
        exact ⟨pf, spec, v, by rw [heq, h]⟩
    by_cases h1 : containsColon (pyStrip mn) = true
    · by_cases h2 : (splitFirstColon (pyStrip mn)).2 = ""
      · left
        have h : create_agent_for_task_automation env factory mk mn role rd aid =
            ⟨Except.error CreateError.missingModelAfterColon, []⟩ := by
          simp [create_agent_for_task_automation, h0, h1, h2]
        rw [h]
        exact ⟨rfl, CreateError.missingModelAfterColon, rfl, Or.inr (Or.inl rfl)⟩
      · by_cases p1 : pyLower (splitFirstColon (pyStrip mn)).1 = "openai"
        · exact step (some ModelPlatformType.OPENAI)
            (ModelSpec.raw (splitFirstColon (pyStrip mn)).2) "OPENAI_API_KEY"
            (by simp [create_agent_for_task_automation, h0, h1, h2, p1])
        · by_cases p2 : pyLower (splitFirstColon (pyStrip mn)).1 = "anthropic"
          · exact step (some ModelPlatformType.ANTHROPIC)
              (ModelSpec.raw (splitFirstColon (pyStrip mn)).2) "ANTHROPIC_API_KEY"
              (by simp [create_agent_for_task_automation, h0, h1, h2, p1, p2])
          · by_cases p3 : pyLower (splitFirstColon (pyStrip mn)).1 = "gemini"
            · exact step (some ModelPlatformType.GEMINI)
                (ModelSpec.raw (splitFirstColon (pyStrip mn)).2) "GEMINI_API_KEY"
                (by simp [create_agent_for_task_automation, h0, h1, h2, p1, p2, p3])
            · by_cases p4 : pyLower (splitFirstColon (pyStrip mn)).1 = "openrouter"
              · exact step (some ModelPlatformType.OPENROUTER)
                  (ModelSpec.raw (splitFirstColon (pyStrip mn)).2) "OPENROUTER_API_KEY"
                  (by simp [create_agent_for_task_automation, h0, h1, h2, p1, p2, p3, p4])
              · left
                have h : create_agent_for_task_automation env factory mk mn role rd aid =
                    ⟨Except.error CreateError.unknownProviderToken, []⟩ := by
                  simp [create_agent_for_task_automation, h0, h1, h2, p1, p2, p3, p4]
                rw [h]
                exact ⟨rfl, CreateError.unknownProviderToken, rfl, Or.inr (Or.inr (Or.inl rfl))⟩
    · by_cases q1 : pyLower (pyStrip mn) = "gpt-4"
      · exact step (some ModelPlatformType.OPENAI) (ModelSpec.known ModelType.GPT_4)
          "OPENAI_API_KEY" (by simp [create_agent_for_task_automation, h0, h1, q1])
      · by_cases q2 : pyLower (pyStrip mn) = "gpt-3.5-turbo"
        · exact step (some ModelPlatformType.OPENAI) (ModelSpec.known ModelType.GPT_35_TURBO)
            "OPENAI_API_KEY" (by simp [create_agent_for_task_automation, h0, h1, q1, q2])
        · by_cases q3 : pyLower (pyStrip mn) = "gpt-3.5"
          · exact step (some ModelPlatformType.OPENAI) (ModelSpec.known ModelType.GPT_35_TURBO)
              "OPENAI_API_KEY" (by simp [create_agent_for_task_automation, h0, h1, q1, q2, q3])
          · by_cases q4 : pyLower (pyStrip mn) = "claude-2"
            · exact step (some ModelPlatformType.ANTHROPIC) (ModelSpec.known ModelType.CLAUDE_2)
                "ANTHROPIC_API_KEY"
                (by simp [create_agent_for_task_automation, h0, h1, q1, q2, q3, q4])
            · left
              have h : create_agent_for_task_automation env factory mk mn role rd aid =
                  ⟨Except.error CreateError.unknownModelShortName, []⟩ := by
                simp [create_agent_for_task_automation, h0, h1, q1, q2, q3, q4]
              rw [h]
              exact ⟨rfl, CreateError.unknownModelShortName, rfl,
                Or.inr (Or.inr (Or.inr (Or.inl rfl)))⟩

/-- A raising factory makes `chatAgentFinish` fail with the caught-exception
error carrying the original message. -/
theorem chatAgentFinish_factoryRaise {M A : Type}
    (mk : SysMessage → M → Except PyExc A) (pl : ModelPlatformType) (spec : ModelSpec)
    (cfg : ModelConfig) (key : Option String) (role rd : String) (e : PyExc) :
    chatAgentFinish (fun _ _ _ _ => Except.error e) mk pl spec cfg key role rd =
      ⟨Except.error (CreateError.exceptionCaught e.msg), [⟨some pl, spec, cfg, key⟩]⟩ := by
  simp [chatAgentFinish]

/-- A raising `ChatAgent` constructor (with a succeeding factory) makes
`chatAgentFinish` fail with the caught-exception error carrying the original
message. -/
theorem chatAgentFinish_ctorRaise {M A : Type} (m : M) (pl : ModelPlatformType)
    (spec : ModelSpec) (cfg : ModelConfig) (key : Option String) (role rd : String)
    (e : PyExc) :
    chatAgentFinish (fun _ _ _ _ => Except.ok (some m))
        (fun _ _ => (Except.error e : Except PyExc A)) pl spec cfg key role rd =
      ⟨Except.error (CreateError.exceptionCaught e.msg), [⟨some pl, spec, cfg, key⟩]⟩ := by
  simp [chatAgentFinish]

/-- A raising factory makes `taskCallAndBuild` fail with the handler error
for the raised exception class, carrying the original message. -/
theorem taskCallAndBuild_factoryRaise {M A : Type}
    (mk : String → M → Except PyExc A) (pf : Option ModelPlatformType) (spec : ModelSpec)
    (cfg : ModelConfig) (key : Option String) (role rd : String) (e : PyExc) :
    taskCallAndBuild (fun _ _ _ _ => Except.error e) mk pf spec cfg key role rd =
      ⟨Except.error (taskCaught e), [⟨pf, spec, cfg, key⟩]⟩ := by
  cases e <;> simp [taskCallAndBuild, taskCaught]

/-- A raising `ChatAgent` constructor (with a succeeding factory) makes
`taskCallAndBuild` fail with the handler error for the raised exception
class, carrying the original message. -/
theorem taskCallAndBuild_ctorRaise {M A : Type} (m : M) (pf : Option ModelPlatformType)
    (spec : ModelSpec) (cfg : ModelConfig) (key : Option String) (role rd : String)
    (e : PyExc) :
    taskCallAndBuild (fun _ _ _ _ => Except.ok (some m))
        (fun _ _ => (Except.error e : Except PyExc A)) pf spec cfg key role rd =
      ⟨Except.error (taskCaught e), [⟨pf, spec, cfg, key⟩]⟩ := by
  cases e <;> simp [taskCallAndBuild, taskCaught]

/-- With a recognized provider whose credential is set, `create_agent`
performs exactly one factory call: that provider's platform, the alias
mapping of the stripped model name, the fixed config, and the credential. -/
theorem create_agent_calls_known {M A : Type} (env : Getenv) (factory : Factory M)
    (mk : SysMessage → M → Except PyExc A) (pn mn role rd aid key k : String)
    (pl : ModelPlatformType)
    (hpn : pn ≠ "") (hmn : pyStrip mn ≠ "")
    (hkey : providerEnvKey (pyLower pn) = some key)
    (hpl : providerPlatform (pyLower pn) = some pl)
    (henvk : env key = some k) (hk : k ≠ "") :
    (create_agent env factory mk pn mn role rd aid).factoryCalls =
      [⟨some pl, providerAlias (pyLower pn) (pyStrip mn),
        ⟨some 4096, some pointSeven⟩, some k⟩] := by
  rw [create_agent_known env factory mk pn mn role rd aid key pl hpn hmn hkey hpl]
  have ht : pyTruthy (env key) = true := by rw [henvk]; simp [pyTruthy, hk]
  simp only [ht, Bool.not_true, Bool.false_eq_true, if_false]
  rw [chatAgentFinish_calls, henvk]

/-- The `create_model_instance` analogue of `create_agent_calls_known`. -/
theorem create_model_instance_calls_known {M : Type} (env : Getenv) (factory : Factory M)
    (pn mn aid key k : String) (pl : ModelPlatformType)
    (hpn : pn ≠ "") (hmn : pyStrip mn ≠ "")
    (hkey : providerEnvKey (pyLower pn) = some key)
    (hpl : providerPlatform (pyLower pn) = some pl)
    (henvk : env key = some k) (hk : k ≠ "") :
    (create_model_instance env factory pn mn aid).factoryCalls =
      [⟨some pl, providerAlias (pyLower pn) (pyStrip mn),
        ⟨some 4096, some pointSeven⟩, some k⟩] := by
  rw [create_model_instance_known env factory pn mn aid key pl hpn hmn hkey hpl]
  have ht : pyTruthy (env key) = true := by rw [henvk]; simp [pyTruthy, hk]
  simp only [ht, Bool.not_true, Bool.false_eq_true, if_false]
  rw [modelInstanceFinish_calls, henvk]

/-- With a known `provider:model` prefix whose credential is set,
`create_agent_for_task_automation` performs exactly one factory call: the
prefix provider's platform, the raw model part after the colon, the
max-tokens-only config, and the credential value. -/
theorem task_prefix_calls {M A : Type} (env : Getenv) (factory : Factory M)
    (mk : String → M → Except PyExc A) (s role rd aid key : String)
    (pl : ModelPlatformType)
    (hstrip : pyStrip s = s) (hne : s ≠ "") (hcolon : containsColon s = true)
    (hrest : (splitFirstColon s).2 ≠ "")
    (hkey : providerEnvKey (pyLower (splitFirstColon s).1) = some key)
    (hpl : providerPlatform (pyLower (splitFirstColon s).1) = some pl)
    (ht : pyTruthy (env key) = true) :
    (create_agent_for_task_automation env factory mk s role rd aid).factoryCalls =
      [⟨some pl, ModelSpec.raw (splitFirstColon s).2, ⟨some 4096, none⟩, env key⟩] := by
  by_cases p1 : pyLower (splitFirstColon s).1 = "openai"
  · simp [providerEnvKey, p1] at hkey
    simp [providerPlatform, p1] at hpl
    subst hkey; subst hpl
    have hb : create_agent_for_task_automation env factory mk s role rd aid =
        taskAgentFinish env factory mk (some ModelPlatformType.OPENAI)
          (ModelSpec.raw (splitFirstColon s).2) "OPENAI_API_KEY" role rd := by
      simp [create_agent_for_task_automation, hstrip, hne, hcolon, hrest, p1]
    rw [hb, taskAgentFinish_raw_calls env factory mk _ _ _ role rd ht]
  · by_cases p2 : pyLower (splitFirstColon s).1 = "anthropic"
    · simp [providerEnvKey, p1, p2] at hkey
      simp [providerPlatform, p1, p2] at hpl
      subst hkey; subst hpl
      have hb : create_agent_for_task_automation env factory mk s role rd aid =
          taskAgentFinish env factory mk (some ModelPlatformType.ANTHROPIC)
            (ModelSpec.raw (splitFirstColon s).2) "ANTHROPIC_API_KEY" role rd := by
        simp [create_agent_for_task_automation, hstrip, hne, hcolon, hrest, p1, p2]
      rw [hb, taskAgentFinish_raw_calls env factory mk _ _ _ role rd ht]
    · by_cases p3 : pyLower (splitFirstColon s).1 = "gemini"
      · simp [providerEnvKey, p1, p2, p3] at hkey
        simp [providerPlatform, p1, p2, p3] at hpl
        subst hkey; subst hpl
        have hb : create_agent_for_task_automation env factory mk s role rd aid =
            taskAgentFinish env factory mk (some ModelPlatformType.GEMINI)
              (ModelSpec.raw (splitFirstColon s).2) "GEMINI_API_KEY" role rd := by
          simp [create_agent_for_task_automation, hstrip, hne, hcolon, hrest, p1, p2, p3]
        rw [hb, taskAgentFinish_raw_calls env factory mk _ _ _ role rd ht]
      · by_cases p4 : pyLower (splitFirstColon s).1 = "openrouter"
        · simp [providerEnvKey, p1, p2, p3, p4] at hkey
          simp [providerPlatform, p1, p2, p3, p4] at hpl
          subst hkey; subst hpl
          have hb : create_agent_for_task_automation env factory mk s role rd aid =
              taskAgentFinish env factory mk (some ModelPlatformType.OPENROUTER)
                (ModelSpec.raw (splitFirstColon s).2) "OPENROUTER_API_KEY" role rd := by
            simp [create_agent_for_task_automation, hstrip, hne, hcolon, hrest,
              p1, p2, p3, p4]
          rw [hb, taskAgentFinish_raw_calls env factory mk _ _ _ role rd ht]
        · rw [providerEnvKey] at hkey
          simp [p1, p2, p3, p4] at hkey

/-!
### Claim theorems
-/

/-- C3: For every call with an empty providerName or an empty modelName, each
creation entry point fails with the corresponding EmptyProvider/EmptyModel
failure, returns no agent, and performs no factory call.  (01 lines 136-143,
02 lines 69-74, 03 lines 69-72; `create_agent_for_task_automation` has no
provider argument, so only its model-name check applies there.) -/
theorem claim_C3_empty_inputs :
    (∀ (M A : Type) (env : Getenv) (factory : Factory M)
       (mk : SysMessage → M → Except PyExc A) (mn role rd aid : String),
       create_agent env factory mk "" mn role rd aid =
         ⟨Except.error CreateError.emptyProvider, []⟩) ∧
    (∀ (M A : Type) (env : Getenv) (factory : Factory M)
       (mk : SysMessage → M → Except PyExc A) (pn mn role rd aid : String),
       pn ≠ "" → pyStrip mn = "" →
       create_agent env factory mk pn mn role rd aid =
         ⟨Except.error CreateError.emptyModel, []⟩) ∧
    (∀ (M : Type) (env : Getenv) (factory : Factory M) (mn aid : String),
       create_model_instance env factory "" mn aid =
         ⟨Except.error CreateError.emptyProvider, []⟩) ∧
    (∀ (M : Type) (env : Getenv) (factory : Factory M) (pn mn aid : String),
       pn ≠ "" → pyStrip mn = "" →
       create_model_instance env factory pn mn aid =
         ⟨Except.error CreateError.emptyModel, []⟩) ∧
    (∀ (M A : Type) (env : Getenv) (factory : Factory M)
       (mk : String → M → Except PyExc A) (mn role rd aid : String),
       pyStrip mn = "" →
       create_agent_for_task_automation env factory mk mn role rd aid =
         ⟨Except.error CreateError.emptyModel, []⟩) := by
  refine ⟨?_, ?_, ?_, ?_, ?_⟩
  · intro M A env factory mk mn role rd aid
    simp [create_agent]
  · intro M A env factory mk pn mn role rd aid hpn hmn
    simp [create_agent, hpn, hmn]
  · intro M env factory mn aid
    simp [create_model_instance]
  · intro M env factory pn mn aid hpn hmn
    simp [create_model_instance, hpn, hmn]
  · intro M A env factory mk mn role rd aid hmn
    simp [create_agent_for_task_automation, hmn]

/-- Witness for C3: concrete empty and whitespace-only inputs at each entry
point. -/
theorem claim_C3_empty_inputs_witness :
    create_agent envAll okFactory okCtor "" "gpt-4o" "r" "d" "A" =
        ⟨Except.error CreateError.emptyProvider, []⟩ ∧
    create_agent envAll okFactory okCtor "OpenAI" "   " "r" "d" "A" =
        ⟨Except.error CreateError.emptyModel, []⟩ ∧
    create_model_instance envAll okFactory "" "gpt-4o" "A" =
        ⟨Except.error CreateError.emptyProvider, []⟩ ∧
    create_model_instance envAll okFactory "OpenAI" " " "A" =
        ⟨Except.error CreateError.emptyModel, []⟩ ∧
    create_agent_for_task_automation envAll okFactory okCtorStr "  " "r" "d" "T" =
        ⟨Except.error CreateError.emptyModel, []⟩ :=
  ⟨claim_C3_empty_inputs.1 Nat Nat envAll okFactory okCtor "gpt-4o" "r" "d" "A",
   claim_C3_empty_inputs.2.1 Nat Nat envAll okFactory okCtor "OpenAI" "   " "r" "d" "A"
     (by decide) (by decide),
   claim_C3_empty_inputs.2.2.1 Nat envAll okFactory "gpt-4o" "A",
   claim_C3_empty_inputs.2.2.2.1 Nat envAll okFactory "OpenAI" " " "A" (by decide) (by decide),
   claim_C3_empty_inputs.2.2.2.2 Nat Nat envAll okFactory okCtorStr "  " "r" "d" "T" (by decide)⟩

/-- C10: In `create_agent_for_task_automation`, a stripped input of the form
`provider:` with a known provider token but nothing after the colon fails
with the missing-model error (03 lines 88-91) for every environment — so no
credential variable is consulted — and performs no factory call.  (The
rejection happens before the provider dispatch, so the known-token hypothesis
is not even needed.) -/
theorem claim_C10_empty_model_after_colon
    (M A : Type) (env : Getenv) (factory : Factory M)
    (mk : String → M → Except PyExc A) (s role rd aid : String)
    (hstrip : pyStrip s = s) (hne : s ≠ "") (hcolon : containsColon s = true)
    (hrest : (splitFirstColon s).2 = "")
    (hknown : pyLower (splitFirstColon s).1 = "openai" ∨
      pyLower (splitFirstColon s).1 = "anthropic" ∨
      pyLower (splitFirstColon s).1 = "gemini" ∨
      pyLower (splitFirstColon s).1 = "openrouter") :
    create_agent_for_task_automation env factory mk s role rd aid =
      ⟨Except.error CreateError.missingModelAfterColon, []⟩ := by
  simp [create_agent_for_task_automation, hstrip, hne, hcolon, hrest]

/-- Witness for C10 at the input `"openai:"`, with an environment in which
every credential is set (showing the failure is decided before the
credential is consulted). -/
theorem claim_C10_empty_model_after_colon_witness :
    create_agent_for_task_automation envAll okFactory okCtorStr "openai:" "r" "d" "T" =
      ⟨Except.error CreateError.missingModelAfterColon, []⟩ :=
  claim_C10_empty_model_after_colon Nat Nat envAll okFactory okCtorStr "openai:" "r" "d" "T"
    (by decide) (by decide) (by decide) (by decide) (Or.inl (by decide))

/-- C6: In `create_agent_for_task_automation` (the entry point that parses
`provider:model` prefixes), an input whose prefix token is not one of the
four known providers fails with the unknown-provider error (03 lines
106-109), returns no agent, and performs no factory call. -/
theorem claim_C6_unknown_provider_token
    (M A : Type) (env : Getenv) (factory : Factory M)
    (mk : String → M → Except PyExc A) (s role rd aid : String)
    (hstrip : pyStrip s = s) (hne : s ≠ "") (hcolon : containsColon s = true)
    (hrest : (splitFirstColon s).2 ≠ "")
    (h1 : pyLower (splitFirstColon s).1 ≠ "openai")
    (h2 : pyLower (splitFirstColon s).1 ≠ "anthropic")
    (h3 : pyLower (splitFirstColon s).1 ≠ "gemini")
    (h4 : pyLower (splitFirstColon s).1 ≠ "openrouter") :
    create_agent_for_task_automation env factory mk s role rd aid =
      ⟨Except.error CreateError.unknownProviderToken, []⟩ := by
  simp [create_agent_for_task_automation, hstrip, hne, hcolon, hrest, h1, h2, h3, h4]

/-- Witness for C6 at the input `"foo:bar"` with all credentials set. -/
theorem claim_C6_unknown_provider_token_witness :
    create_agent_for_task_automation envAll okFactory okCtorStr "foo:bar" "r" "d" "T" =
      ⟨Except.error CreateError.unknownProviderToken, []⟩ :=
  claim_C6_unknown_provider_token Nat Nat envAll okFactory okCtorStr "foo:bar" "r" "d" "T"
    (by decide) (by decide) (by decide) (by decide) (by decide) (by decide) (by decide)
    (by decide)

/-- C2: Whenever the credential environment variable of the resolved provider
is unset (or empty), agent creation fails with the missing-credential error
and the model factory is never invoked, regardless of which (non-empty) model
name was supplied: (i) in `create_agent` for each of the four recognized
providers (01 lines 150-155 etc.); (ii) in `create_agent_for_task_automation`
for every known `provider:model` prefix (03 lines 130-136); (iii) in
`create_agent_for_task_automation` for the inferred short name `gpt-4`.
The empty factory-call trace for every factory shows no agent handle is ever
constructed without a non-empty credential. -/
theorem claim_C2_missing_credential :
    (∀ (M A : Type) (env : Getenv) (factory : Factory M)
       (mk : SysMessage → M → Except PyExc A) (pn mn role rd aid key : String),
       pn ≠ "" → pyStrip mn ≠ "" →
       providerEnvKey (pyLower pn) = some key →
       pyTruthy (env key) = false →
       create_agent env factory mk pn mn role rd aid =
         ⟨Except.error CreateError.missingApiKey, []⟩) ∧
    (∀ (M A : Type) (env : Getenv) (factory : Factory M)
       (mk : String → M → Except PyExc A) (s role rd aid key : String),
       pyStrip s = s → s ≠ "" → containsColon s = true →
       (splitFirstColon s).2 ≠ "" →
       providerEnvKey (pyLower (splitFirstColon s).1) = some key →
       pyTruthy (env key) = false →
       create_agent_for_task_automation env factory mk s role rd aid =
         ⟨Except.error CreateError.missingApiKey, []⟩) ∧
    (∀ (M A : Type) (env : Getenv) (factory : Factory M)
       (mk : String → M → Except PyExc A) (s role rd aid : String),
       pyStrip s = s → s ≠ "" → containsColon s = false → pyLower s = "gpt-4" →
       pyTruthy (env "OPENAI_API_KEY") = false →
       create_agent_for_task_automation env factory mk s role rd aid =
         ⟨Except.error CreateError.missingApiKey, []⟩) := by
  refine ⟨?_, ?_, ?_⟩
  · intro M A env factory mk pn mn role rd aid key hpn hmn hkey henv
    obtain ⟨pl, hpl⟩ := providerPlatform_isSome _ _ hkey
    rw [create_agent_known env factory mk pn mn role rd aid key pl hpn hmn hkey hpl]
    simp [henv]
  · intro M A env factory mk s role rd aid key hstrip hne hcolon hrest hkey henv
    by_cases p1 : pyLower (splitFirstColon s).1 = "openai"
    · simp only [providerEnvKey, p1, if_pos, beq_self_eq_true, if_true,
        Option.some.injEq] at hkey
      subst hkey
      simp only [create_agent_for_task_automation, hstrip, hne, hcolon, hrest, p1]
      simp [hne, hrest, taskAgentFinish_noKey env factory mk _ _ _ role rd (by decide) henv]
    · by_cases p2 : pyLower (splitFirstColon s).1 = "anthropic"
      · simp [providerEnvKey, p1, p2] at hkey
        subst hkey
        simp only [create_agent_for_task_automation, hstrip, hne, hcolon, hrest, p1, p2]
        simp [hne, hrest, p1,
          taskAgentFinish_noKey env factory mk _ _ _ role rd (by decide) henv]
      · by_cases p3 : pyLower (splitFirstColon s).1 = "gemini"
        · simp [providerEnvKey, p1, p2, p3] at hkey
          subst hkey
          simp only [create_agent_for_task_automation, hstrip, hne, hcolon, hrest, p1, p2, p3]
          simp [hne, hrest, p1, p2,
            taskAgentFinish_noKey env factory mk _ _ _ role rd (by decide) henv]
        · by_cases p4 : pyLower (splitFirstColon s).1 = "openrouter"
          · simp [providerEnvKey, p1, p2, p3, p4] at hkey
            subst hkey
            simp only [create_agent_for_task_automation, hstrip, hne, hcolon, hrest,
              p1, p2, p3, p4]
            simp [hne, hrest, p1, p2, p3,
              taskAgentFinish_noKey env factory mk _ _ _ role rd (by decide) henv]
          · rw [providerEnvKey] at hkey
            simp [p1, p2, p3, p4] at hkey
  · intro M A env factory mk s role rd aid hstrip hne hcolon hlow henv
    simp only [create_agent_for_task_automation, hstrip, hne, hcolon, hlow]
    simp [hne, taskAgentFinish_noKey env factory mk _ _ _ role rd (by decide) henv]

/-- Witness for C2: with no credentials set, `create_agent` for Anthropic
with a valid model name, and `create_agent_for_task_automation` for both a
prefixed and a short-name input, all fail with the missing-credential error
and perform no factory call. -/
theorem claim_C2_missing_credential_witness :
    create_agent envNone okFactory okCtor "Anthropic" "claude-sonnet-4-20250514" "r" "d" "A" =
        ⟨Except.error CreateError.missingApiKey, []⟩ ∧
    create_agent_for_task_automation envNone okFactory okCtorStr
        "gemini:gemini-pro" "r" "d" "T" =
        ⟨Except.error CreateError.missingApiKey, []⟩ ∧
    create_agent_for_task_automation envNone okFactory okCtorStr "gpt-4" "r" "d" "T" =
        ⟨Except.error CreateError.missingApiKey, []⟩ :=
  ⟨claim_C2_missing_credential.1 Nat Nat envNone okFactory okCtor "Anthropic"
      "claude-sonnet-4-20250514" "r" "d" "A" "ANTHROPIC_API_KEY"
      (by decide) (by decide) (by decide) (by decide),
   claim_C2_missing_credential.2.1 Nat Nat envNone okFactory okCtorStr
      "gemini:gemini-pro" "r" "d" "T" "GEMINI_API_KEY"
      (by decide) (by decide) (by decide) (by decide) (by decide) (by decide),
   claim_C2_missing_credential.2.2 Nat Nat envNone okFactory okCtorStr "gpt-4" "r" "d" "T"
      (by decide) (by decide) (by decide) (by decide) (by decide)⟩

/-- C4: For a known provider with its credential set, a (stripped, non-empty)
model name not found in that provider's static alias table passes through
unchanged as a raw string to the model factory rather than being rejected —
at `create_agent` (01 line 168 etc.), at `create_model_instance` (02 line 99
etc.), and at `create_agent_for_task_automation`, where the model part of a
known `provider:model` prefix always passes through raw (03 line 92; in that
entry point a provider is only known via the prefix or a short name, so the
prefix case is the one with an unrecognized model name and a known
provider). -/
theorem claim_C4_raw_passthrough :
    (∀ (M A : Type) (env : Getenv) (factory : Factory M)
       (mk : SysMessage → M → Except PyExc A) (pn mn role rd aid key k : String)
       (pl : ModelPlatformType),
       pn ≠ "" → pyStrip mn = mn → mn ≠ "" →
       providerEnvKey (pyLower pn) = some key →
       providerPlatform (pyLower pn) = some pl →
       env key = some k → k ≠ "" →
       pyLower mn ∉ providerAliasKeys (pyLower pn) →
       (create_agent env factory mk pn mn role rd aid).factoryCalls =
         [⟨some pl, ModelSpec.raw mn, ⟨some 4096, some pointSeven⟩, some k⟩]) ∧
    (∀ (M : Type) (env : Getenv) (factory : Factory M) (pn mn aid key k : String)
       (pl : ModelPlatformType),
       pn ≠ "" → pyStrip mn = mn → mn ≠ "" →
       providerEnvKey (pyLower pn) = some key →
       providerPlatform (pyLower pn) = some pl →
       env key = some k → k ≠ "" →
       pyLower mn ∉ providerAliasKeys (pyLower pn) →
       (create_model_instance env factory pn mn aid).factoryCalls =
         [⟨some pl, ModelSpec.raw mn, ⟨some 4096, some pointSeven⟩, some k⟩]) ∧
    (∀ (M A : Type) (env : Getenv) (factory : Factory M)
       (mk : String → M → Except PyExc A) (s role rd aid key : String)
       (pl : ModelPlatformType),
       pyStrip s = s → s ≠ "" → containsColon s = true →
       (splitFirstColon s).2 ≠ "" →
       providerEnvKey (pyLower (splitFirstColon s).1) = some key →
       providerPlatform (pyLower (splitFirstColon s).1) = some pl →
       pyTruthy (env key) = true →
       (create_agent_for_task_automation env factory mk s role rd aid).factoryCalls =
         [⟨some pl, ModelSpec.raw (splitFirstColon s).2, ⟨some 4096, none⟩, env key⟩]) := by
  refine ⟨?_, ?_, ?_⟩
  · intro M A env factory mk pn mn role rd aid key k pl hpn hstrip hne hkey hpl henvk hk hmiss
    have hmn : pyStrip mn ≠ "" := by rw [hstrip]; exact hne
    rw [create_agent_calls_known env factory mk pn mn role rd aid key k pl
      hpn hmn hkey hpl henvk hk]
    rw [hstrip, providerAlias_raw _ _ hmiss]
  · intro M env factory pn mn aid key k pl hpn hstrip hne hkey hpl henvk hk hmiss
    have hmn : pyStrip mn ≠ "" := by rw [hstrip]; exact hne
    rw [create_model_instance_calls_known env factory pn mn aid key k pl
      hpn hmn hkey hpl henvk hk]
    rw [hstrip, providerAlias_raw _ _ hmiss]
  · intro M A env factory mk s role rd aid key pl hstrip hne hcolon hrest hkey hpl ht
    exact task_prefix_calls env factory mk s role rd aid key pl hstrip hne hcolon hrest
      hkey hpl ht

/-- Witness for C4: the unrecognized model names
`"my-brand-new-model"` (OpenAI branch of `create_agent`),
`"claude-next"` (Anthropic branch of `create_model_instance`) and
`"openrouter:some/new-model"` (Task Automation) reach the factory as raw
strings. -/
theorem claim_C4_raw_passthrough_witness :
    (create_agent envAll okFactory okCtor "OpenAI" "my-brand-new-model" "r" "d"
        "A").factoryCalls =
      [⟨some ModelPlatformType.OPENAI, ModelSpec.raw "my-brand-new-model",
        ⟨some 4096, some pointSeven⟩, some "sk-test-openai"⟩] ∧
    (create_model_instance envAll okFactory "Anthropic" "claude-next" "A").factoryCalls =
      [⟨some ModelPlatformType.ANTHROPIC, ModelSpec.raw "claude-next",
        ⟨some 4096, some pointSeven⟩, some "sk-test-anthropic"⟩] ∧
    (create_agent_for_task_automation envAll okFactory okCtorStr
        "openrouter:some/new-model" "r" "d" "T").factoryCalls =
      [⟨some ModelPlatformType.OPENROUTER, ModelSpec.raw "some/new-model",
        ⟨some 4096, none⟩, some "sk-test-openrouter"⟩] :=
  ⟨claim_C4_raw_passthrough.1 Nat Nat envAll okFactory okCtor "OpenAI"
      "my-brand-new-model" "r" "d" "A" "OPENAI_API_KEY" "sk-test-openai"
      ModelPlatformType.OPENAI (by decide) (by decide) (by decide) (by decide)
      (by decide) (by decide) (by decide) (by decide),
   claim_C4_raw_passthrough.2.1 Nat envAll okFactory "Anthropic" "claude-next" "A"
      "ANTHROPIC_API_KEY" "sk-test-anthropic" ModelPlatformType.ANTHROPIC
      (by decide) (by decide) (by decide) (by decide) (by decide) (by decide)
      (by decide) (by decide),
   claim_C4_raw_passthrough.2.2 Nat Nat envAll okFactory okCtorStr
      "openrouter:some/new-model" "r" "d" "T" "OPENROUTER_API_KEY"
      ModelPlatformType.OPENROUTER (by decide) (by decide) (by decide) (by decide)
      (by decide) (by decide) (by decide)⟩

/-- C9: Every entry point strips the model name before any validation or
lookup: (i)-(iii) a whitespace-only model name is rejected as empty at all
three entry points (01 line 132/140, 02 line 65/72, 03 line 65/69); (iv) in
`create_agent` the alias lookup and the factory call use the stripped form
`pyStrip mn` (01 line 132: `model_name = model_name.strip()` before the
chain). -/
theorem claim_C9_strips_model_name :
    (∀ (M A : Type) (env : Getenv) (factory : Factory M)
       (mk : SysMessage → M → Except PyExc A) (pn mn role rd aid : String),
       pn ≠ "" → pyStrip mn = "" →
       create_agent env factory mk pn mn role rd aid =
         ⟨Except.error CreateError.emptyModel, []⟩) ∧
    (∀ (M : Type) (env : Getenv) (factory : Factory M) (pn mn aid : String),
       pn ≠ "" → pyStrip mn = "" →
       create_model_instance env factory pn mn aid =
         ⟨Except.error CreateError.emptyModel, []⟩) ∧
    (∀ (M A : Type) (env : Getenv) (factory : Factory M)
       (mk : String → M → Except PyExc A) (mn role rd aid : String),
       pyStrip mn = "" →
       create_agent_for_task_automation env factory mk mn role rd aid =
         ⟨Except.error CreateError.emptyModel, []⟩) ∧
    (∀ (M A : Type) (env : Getenv) (factory : Factory M)
       (mk : SysMessage → M → Except PyExc A) (pn mn role rd aid key k : String)
       (pl : ModelPlatformType),
       pn ≠ "" → pyStrip mn ≠ "" →
       providerEnvKey (pyLower pn) = some key →
       providerPlatform (pyLower pn) = some pl →
       env key = some k → k ≠ "" →
       (create_agent env factory mk pn mn role rd aid).factoryCalls =
         [⟨some pl, providerAlias (pyLower pn) (pyStrip mn),
           ⟨some 4096, some pointSeven⟩, some k⟩]) := by
  refine ⟨?_, ?_, ?_, ?_⟩
  · intro M A env factory mk pn mn role rd aid hpn hmn
    simp [create_agent, hpn, hmn]
  · intro M env factory pn mn aid hpn hmn
    simp [create_model_instance, hpn, hmn]
  · intro M A env factory mk mn role rd aid hmn
    simp [create_agent_for_task_automation, hmn]
  · intro M A env factory mk pn mn role rd aid key k pl hpn hmn hkey hpl henvk hk
    exact create_agent_calls_known env factory mk pn mn role rd aid key k pl
      hpn hmn hkey hpl henvk hk

/-- Witness for C9: whitespace-only names are rejected at all three entry
points, and a padded model name `"  claude-sonnet-4-20250514  "` reaches the
alias chain and the factory in stripped form. -/
theorem claim_C9_strips_model_name_witness :
    create_agent envAll okFactory okCtor "OpenAI" " \t " "r" "d" "A" =
        ⟨Except.error CreateError.emptyModel, []⟩ ∧
    create_model_instance envAll okFactory "Gemini" "  " "A" =
        ⟨Except.error CreateError.emptyModel, []⟩ ∧
    create_agent_for_task_automation envAll okFactory okCtorStr " " "r" "d" "T" =
        ⟨Except.error CreateError.emptyModel, []⟩ ∧
    (create_agent envAll okFactory okCtor "Anthropic" "  claude-sonnet-4-20250514  "
        "r" "d" "A").factoryCalls =
      [⟨some ModelPlatformType.ANTHROPIC, ModelSpec.raw "claude-sonnet-4-20250514",
        ⟨some 4096, some pointSeven⟩, some "sk-test-anthropic"⟩] :=
  ⟨claim_C9_strips_model_name.1 Nat Nat envAll okFactory okCtor "OpenAI" " \t " "r" "d" "A"
      (by decide) (by decide),
   claim_C9_strips_model_name.2.1 Nat envAll okFactory "Gemini" "  " "A"
      (by decide) (by decide),
   claim_C9_strips_model_name.2.2.1 Nat Nat envAll okFactory okCtorStr " " "r" "d" "T"
      (by decide),
   by
     rw [claim_C9_strips_model_name.2.2.2 Nat Nat envAll okFactory okCtor "Anthropic"
       "  claude-sonnet-4-20250514  " "r" "d" "A" "ANTHROPIC_API_KEY" "sk-test-anthropic"
       ModelPlatformType.ANTHROPIC (by decide) (by decide) (by decide) (by decide)
       (by decide) (by decide)]
     decide⟩

/-- C1 counterexample: in `create_agent` (which takes a separate
providerName), the modelName `"anthropic:claude-sonnet-4-20250514"` with
providerName `"OpenAI"` and all credentials set resolves the OpenAI platform
and passes the entire prefixed string to the factory as a raw model name —
the explicit prefix does not override the providerName, and the resolved
platform is not Anthropic, contrary to the claim. -/
theorem claim_C1_counterexample :
    create_agent envAll okFactory okCtor "OpenAI" "anthropic:claude-sonnet-4-20250514"
        "AI Assistant" "You are a helpful assistant." "Chat Agent" =
      ⟨Except.ok 1, [⟨some ModelPlatformType.OPENAI,
        ModelSpec.raw "anthropic:claude-sonnet-4-20250514",
        ⟨some 4096, some pointSeven⟩, some "sk-test-openai"⟩]⟩ ∧
    some ModelPlatformType.OPENAI ≠ some ModelPlatformType.ANTHROPIC :=
  ⟨by decide, by decide⟩

/-- C1 (amended): Prefix-based platform resolution exists only in
`create_agent_for_task_automation` (which takes no separate providerName):
there, a known `provider:model` prefix determines the platform passed to the
factory — in particular `anthropic:claude-sonnet-4-20250514` resolves the
Anthropic platform.  In `create_agent`, the platform of every factory call is
resolved solely from the providerName argument, whatever the model name
contains — so a `provider:` prefix in modelName never overrides
providerName there. -/
theorem claim_C1_amended_prefix_resolution :
    (∀ (M A : Type) (env : Getenv) (factory : Factory M)
       (mk : String → M → Except PyExc A) (s role rd aid key : String)
       (pl : ModelPlatformType),
       pyStrip s = s → s ≠ "" → containsColon s = true →
       (splitFirstColon s).2 ≠ "" →
       providerEnvKey (pyLower (splitFirstColon s).1) = some key →
       providerPlatform (pyLower (splitFirstColon s).1) = some pl →
       pyTruthy (env key) = true →
       ((create_agent_for_task_automation env factory mk s role rd aid).factoryCalls.map
         FactoryCall.model_platform) = [some pl]) ∧
    (∀ (M A : Type) (env : Getenv) (factory : Factory M)
       (mk : SysMessage → M → Except PyExc A) (pn mn role rd aid : String)
       (pl : ModelPlatformType) (c : FactoryCall),
       providerPlatform (pyLower pn) = some pl →
       c ∈ (create_agent env factory mk pn mn role rd aid).factoryCalls →
       c.model_platform = some pl) := by
  constructor
  · intro M A env factory mk s role rd aid key pl hstrip hne hcolon hrest hkey hpl ht
    rw [task_prefix_calls env factory mk s role rd aid key pl hstrip hne hcolon hrest
      hkey hpl ht]
    rfl
  · intro M A env factory mk pn mn role rd aid pl c hpl hc
    rcases create_agent_shape env factory mk pn mn role rd aid with
      ⟨hnil, _⟩ | ⟨key2, pl2, hkey2, hpl2, ht2, heq⟩
    · rw [hnil] at hc
      simp at hc
    · rw [heq, chatAgentFinish_calls] at hc
      simp only [List.mem_singleton] at hc
      subst hc
      rw [hpl] at hpl2
      injection hpl2 with h
      rw [h]

/-- Witness for C1 (amended): the claim's own example input.  In Task
Automation, `anthropic:claude-sonnet-4-20250514` resolves the Anthropic
platform; in `create_agent`, the same modelName with providerName `"OpenAI"`
yields a factory call whose platform is OpenAI. -/
theorem claim_C1_amended_prefix_resolution_witness :
    ((create_agent_for_task_automation envAll okFactory okCtorStr
        "anthropic:claude-sonnet-4-20250514" "r" "d" "T").factoryCalls.map
      FactoryCall.model_platform) = [some ModelPlatformType.ANTHROPIC] ∧
    FactoryCall.model_platform
        ⟨some ModelPlatformType.OPENAI, ModelSpec.raw "anthropic:claude-sonnet-4-20250514",
          ⟨some 4096, some pointSeven⟩, some "sk-test-openai"⟩ =
      some ModelPlatformType.OPENAI :=
  ⟨claim_C1_amended_prefix_resolution.1 Nat Nat envAll okFactory okCtorStr
      "anthropic:claude-sonnet-4-20250514" "r" "d" "T" "ANTHROPIC_API_KEY"
      ModelPlatformType.ANTHROPIC (by decide) (by decide) (by decide) (by decide)
      (by decide) (by decide) (by decide),
   claim_C1_amended_prefix_resolution.2 Nat Nat envAll okFactory okCtor "OpenAI"
      "anthropic:claude-sonnet-4-20250514" "r" "d" "A" ModelPlatformType.OPENAI
      ⟨some ModelPlatformType.OPENAI, ModelSpec.raw "anthropic:claude-sonnet-4-20250514",
        ⟨some 4096, some pointSeven⟩, some "sk-test-openai"⟩
      (by decide) (by decide)⟩

/-- C5 counterexample: at the Task Automation call site a fully successful
creation (`gpt-4`, OpenAI credential set, stub factory and constructor)
passes the factory an options block `{"max_tokens": 4096}` whose temperature
is absent — refuting the claim that every call site passes a fixed default
containing both a temperature and a max-token ceiling. -/
theorem claim_C5_counterexample :
    create_agent_for_task_automation envAll okFactory okCtorStr "gpt-4"
        "Task Executor" "d" "Task Automation Agent" =
      ⟨Except.ok 1, [⟨none, ModelSpec.known ModelType.GPT_4,
        ⟨some 4096, none⟩, some "sk-test-openai"⟩]⟩ ∧
    (⟨some 4096, none⟩ : ModelConfig).temperature = none :=
  ⟨by decide, rfl⟩

/-- C5 (amended): The options block handed to the model factory is fixed and
hard-coded at each call site (no caller can override it): every factory call
of `create_agent` and of `create_model_instance` carries
`{"max_tokens": 4096, "temperature": 0.7}` (01 line 148, 02 line 79), while
every factory call of `create_agent_for_task_automation` carries only
`{"max_tokens": 4096}`, with no temperature (03 line 79). -/
theorem claim_C5_amended_fixed_options :
    (∀ (M A : Type) (env : Getenv) (factory : Factory M)
       (mk : SysMessage → M → Except PyExc A) (pn mn role rd aid : String)
       (c : FactoryCall),
       c ∈ (create_agent env factory mk pn mn role rd aid).factoryCalls →
       c.model_config_dict = ⟨some 4096, some pointSeven⟩) ∧
    (∀ (M : Type) (env : Getenv) (factory : Factory M) (pn mn aid : String)
       (c : FactoryCall),
       c ∈ (create_model_instance env factory pn mn aid).factoryCalls →
       c.model_config_dict = ⟨some 4096, some pointSeven⟩) ∧
    (∀ (M A : Type) (env : Getenv) (factory : Factory M)
       (mk : String → M → Except PyExc A) (mn role rd aid : String)
       (c : FactoryCall),
       c ∈ (create_agent_for_task_automation env factory mk mn role rd aid).factoryCalls →
       c.model_config_dict = ⟨some 4096, none⟩) := by
  refine ⟨?_, ?_, ?_⟩
  · intro M A env factory mk pn mn role rd aid c hc
    rcases create_agent_shape env factory mk pn mn role rd aid with
      ⟨hnil, _⟩ | ⟨key, pl, _, _, _, heq⟩
    · rw [hnil] at hc
      simp at hc
    · rw [heq, chatAgentFinish_calls] at hc
      simp only [List.mem_singleton] at hc
      subst hc
      rfl
  · intro M env factory pn mn aid c hc
    rcases create_model_instance_shape env factory pn mn aid with
      ⟨hnil, _⟩ | ⟨key, pl, _, _, _, heq⟩
    · rw [hnil] at hc
      simp at hc
    · rw [heq, modelInstanceFinish_calls] at hc
      simp only [List.mem_singleton] at hc
      subst hc
      rfl
  · intro M A env factory mk mn role rd aid c hc
    rcases task_automation_shape env factory mk mn role rd aid with
      ⟨hnil, _⟩ | ⟨pf, spec, v, heq⟩
    · rw [hnil] at hc
      simp at hc
    · rw [heq, taskCallAndBuild_calls] at hc
      simp only [List.mem_singleton] at hc
      subst hc
      rfl

/-- Witness for C5 (amended) at concrete successful runs of the three entry
points. -/
theorem claim_C5_amended_fixed_options_witness :
    FactoryCall.model_config_dict
        ⟨some ModelPlatformType.OPENAI, ModelSpec.raw "gpt-4o",
          ⟨some 4096, some pointSeven⟩, some "sk-test-openai"⟩ =
      ⟨some 4096, some pointSeven⟩ ∧
    FactoryCall.model_config_dict
        ⟨some ModelPlatformType.GEMINI, ModelSpec.raw "my-new-gemini",
          ⟨some 4096, some pointSeven⟩, some "sk-test-gemini"⟩ =
      ⟨some 4096, some pointSeven⟩ ∧
    FactoryCall.model_config_dict
        ⟨none, ModelSpec.known ModelType.GPT_4, ⟨some 4096, none⟩,
          some "sk-test-openai"⟩ =
      ⟨some 4096, none⟩ :=
  ⟨claim_C5_amended_fixed_options.1 Nat Nat envAll okFactory okCtor "OpenAI" "gpt-4o"
      "r" "d" "A" _ (by decide),
   claim_C5_amended_fixed_options.2.1 Nat envAll okFactory "Gemini" "my-new-gemini" "A"
      _ (by decide),
   claim_C5_amended_fixed_options.2.2 Nat Nat envAll okFactory okCtorStr "gpt-4"
      "r" "d" "T" _ (by decide)⟩

/-- C7: Exceptions raised by the injected factory or agent constructor are
caught and re-surfaced as a single provisioning failure carrying the original
message, and no agent handle is ever returned in that case: for a raising
factory and for a raising constructor (with a succeeding factory), in both
`create_agent` (01 lines 269-272, one generic handler) and
`create_agent_for_task_automation` (03 lines 158-165, a ValueError handler
and a generic handler, modelled by `taskCaught`).  Each conjunct states that
the run returns no agent, and that whenever the factory was actually invoked
the result is exactly the caught-exception failure with the original
message. -/
theorem claim_C7_exceptions_resurfaced :
    (∀ (M A : Type) (env : Getenv) (mk : SysMessage → M → Except PyExc A)
       (pn mn role rd aid : String) (e : PyExc),
       (create_agent env (fun _ _ _ _ => Except.error e) mk pn mn role rd aid).result.isOk
           = false ∧
       ((create_agent env (fun _ _ _ _ => Except.error e) mk pn mn role rd aid).factoryCalls
           ≠ [] →
        (create_agent env (fun _ _ _ _ => Except.error e) mk pn mn role rd aid).result =
          Except.error (CreateError.exceptionCaught e.msg))) ∧
    (∀ (M A : Type) (m : M) (env : Getenv) (pn mn role rd aid : String) (e : PyExc),
       (create_agent env (fun _ _ _ _ => Except.ok (some m))
           (fun _ _ => (Except.error e : Except PyExc A)) pn mn role rd aid).result.isOk
           = false ∧
       ((create_agent env (fun _ _ _ _ => Except.ok (some m))
           (fun _ _ => (Except.error e : Except PyExc A)) pn mn role rd aid).factoryCalls
           ≠ [] →
        (create_agent env (fun _ _ _ _ => Except.ok (some m))
           (fun _ _ => (Except.error e : Except PyExc A)) pn mn role rd aid).result =
          Except.error (CreateError.exceptionCaught e.msg))) ∧
    (∀ (M A : Type) (env : Getenv) (mk : String → M → Except PyExc A)
       (mn role rd aid : String) (e : PyExc),
       (create_agent_for_task_automation env (fun _ _ _ _ => Except.error e) mk
           mn role rd aid).result.isOk = false ∧
       ((create_agent_for_task_automation env (fun _ _ _ _ => Except.error e) mk
           mn role rd aid).factoryCalls ≠ [] →
        (create_agent_for_task_automation env (fun _ _ _ _ => Except.error e) mk
           mn role rd aid).result = Except.error (taskCaught e))) ∧
    (∀ (M A : Type) (m : M) (env : Getenv) (mn role rd aid : String) (e : PyExc),
       (create_agent_for_task_automation env (fun _ _ _ _ => Except.ok (some m))
           (fun _ _ => (Except.error e : Except PyExc A)) mn role rd aid).result.isOk
           = false ∧
       ((create_agent_for_task_automation env (fun _ _ _ _ => Except.ok (some m))
           (fun _ _ => (Except.error e : Except PyExc A)) mn role rd aid).factoryCalls
           ≠ [] →
        (create_agent_for_task_automation env (fun _ _ _ _ => Except.ok (some m))
           (fun _ _ => (Except.error e : Except PyExc A)) mn role rd aid).result =
          Except.error (taskCaught e))) := by
  refine ⟨?_, ?_, ?_, ?_⟩
  · intro M A env mk pn mn role rd aid e
    rcases create_agent_shape env (fun _ _ _ _ => Except.error e) mk pn mn role rd aid with
      ⟨hnil, err, herr, _⟩ | ⟨key, pl, _, _, _, heq⟩
    · exact ⟨by rw [herr]; rfl, fun hne => absurd hnil hne⟩
    · rw [heq, chatAgentFinish_factoryRaise]
      exact ⟨rfl, fun _ => rfl⟩
  · intro M A m env pn mn role rd aid e
    rcases create_agent_shape env (fun _ _ _ _ => Except.ok (some m))
        (fun _ _ => (Except.error e : Except PyExc A)) pn mn role rd aid with
      ⟨hnil, err, herr, _⟩ | ⟨key, pl, _, _, _, heq⟩
    · exact ⟨by rw [herr]; rfl, fun hne => absurd hnil hne⟩
    · rw [heq, chatAgentFinish_ctorRaise]
      exact ⟨rfl, fun _ => rfl⟩
  · intro M A env mk mn role rd aid e
    rcases task_automation_shape env (fun _ _ _ _ => Except.error e) mk mn role rd aid with
      ⟨hnil, err, herr, _⟩ | ⟨pf, spec, v, heq⟩
    · exact ⟨by rw [herr]; rfl, fun hne => absurd hnil hne⟩
    · rw [heq, taskCallAndBuild_factoryRaise]
      exact ⟨rfl, fun _ => rfl⟩
  · intro M A m env mn role rd aid e
    rcases task_automation_shape env (fun _ _ _ _ => Except.ok (some m))
        (fun _ _ => (Except.error e : Except PyExc A)) mn role rd aid with
      ⟨hnil, err, herr, _⟩ | ⟨pf, spec, v, heq⟩
    · exact ⟨by rw [herr]; rfl, fun hne => absurd hnil hne⟩
    · rw [heq, taskCallAndBuild_ctorRaise]
      exact ⟨rfl, fun _ => rfl⟩

/-- Witness for C7: a factory raising `"boom"`, a constructor raising
`"bang"`, a factory raising `ValueError("bad config")` in Task Automation,
and a constructor raising `"bang"` in Task Automation, at inputs that reach
the respective capability. -/
theorem claim_C7_exceptions_resurfaced_witness :
    (create_agent envAll (raiseFactory (PyExc.otherExc "boom")) okCtor "OpenAI" "gpt-4o"
        "r" "d" "A").result = Except.error (CreateError.exceptionCaught "boom") ∧
    (create_agent envAll okFactory (raiseCtor (PyExc.otherExc "bang")) "OpenAI" "gpt-4o"
        "r" "d" "A").result = Except.error (CreateError.exceptionCaught "bang") ∧
    (create_agent_for_task_automation envAll
        (raiseFactory (PyExc.valueError "bad config")) okCtorStr "gpt-4" "r" "d"
        "T").result = Except.error (CreateError.valueErrorCaught "bad config") ∧
    (create_agent_for_task_automation envAll okFactory
        (raiseCtorStr (PyExc.otherExc "bang")) "openai:gpt-5" "r" "d" "T").result =
      Except.error (CreateError.exceptionCaught "bang") :=
  ⟨(claim_C7_exceptions_resurfaced.1 Nat Nat envAll okCtor "OpenAI" "gpt-4o" "r" "d" "A"
      (PyExc.otherExc "boom")).2 (by decide),
   (claim_C7_exceptions_resurfaced.2.1 Nat Nat 0 envAll "OpenAI" "gpt-4o" "r" "d" "A"
      (PyExc.otherExc "bang")).2 (by decide),
   (claim_C7_exceptions_resurfaced.2.2.1 Nat Nat envAll okCtorStr "gpt-4" "r" "d" "T"
      (PyExc.valueError "bad config")).2 (by decide),
   (claim_C7_exceptions_resurfaced.2.2.2 Nat Nat 0 envAll "openai:gpt-5" "r" "d" "T"
      (PyExc.otherExc "bang")).2 (by decide)⟩

/-- C8: Resolution is deterministic and a function only of the inputs and the
provider credential variables: repeating `create_agent` with identical
arguments gives an identical outcome, and two environments that agree on the
four credential variables give identical outcomes (the embedding is a pure
function because the Python function's only side effects — `st.error` and
`logging` — feed nothing back into its result). -/
theorem claim_C8_deterministic_resolution :
    (∀ (M A : Type) (env : Getenv) (factory : Factory M)
       (mk : SysMessage → M → Except PyExc A) (pn mn role rd aid : String),
       create_agent env factory mk pn mn role rd aid =
         create_agent env factory mk pn mn role rd aid) ∧
    (∀ (M A : Type) (env env2 : Getenv) (factory : Factory M)
       (mk : SysMessage → M → Except PyExc A) (pn mn role rd aid : String),
       (∀ k, (k = "OPENAI_API_KEY" ∨ k = "ANTHROPIC_API_KEY" ∨
          k = "GEMINI_API_KEY" ∨ k = "OPENROUTER_API_KEY") → env k = env2 k) →
       create_agent env factory mk pn mn role rd aid =
         create_agent env2 factory mk pn mn role rd aid) := by
  constructor
  · intro M A env factory mk pn mn role rd aid
    rfl
  · intro M A env env2 factory mk pn mn role rd aid hag
    by_cases hpn : pn = ""
    · subst hpn
      simp [create_agent]
    · by_cases hmn : pyStrip mn = ""
      · simp [create_agent, hpn, hmn]
      · cases hkey : providerEnvKey (pyLower pn) with
        | none =>
          rw [create_agent_invalidProvider env factory mk pn mn role rd aid hpn hmn hkey,
            create_agent_invalidProvider env2 factory mk pn mn role rd aid hpn hmn hkey]
        | some key =>
          obtain ⟨pl, hpl⟩ := providerPlatform_isSome _ _ hkey
          rw [create_agent_known env factory mk pn mn role rd aid key pl hpn hmn hkey hpl,
            create_agent_known env2 factory mk pn mn role rd aid key pl hpn hmn hkey hpl,
            hag key (providerEnvKey_mem _ _ hkey)]

/-- Witness for C8: identical outcomes under `envAll` and under `envAll` plus
an unrelated variable. -/
theorem claim_C8_deterministic_resolution_witness :
    create_agent envAll okFactory okCtor "OpenAI" "gpt-4o" "r" "d" "A" =
      create_agent envAllPlus okFactory okCtor "OpenAI" "gpt-4o" "r" "d" "A" :=
  claim_C8_deterministic_resolution.2 Nat Nat envAll envAllPlus okFactory okCtor
    "OpenAI" "gpt-4o" "r" "d" "A"
    (fun k hk => by rcases hk with h | h | h | h <;> subst h <;> decide)

end CamelPlayground
